import Mathlib

/-!
Verification of the swf-go decider runtime against its natural-language
specification.  The definitions below are a shallow embedding of the Go
source: `EventCorrelator` and its operations come from the correlator file
(src/unnamed/part_001), the FSM `Tick` machinery from src/unnamed/part_003,
the `ShutdownManager` and pollers from src/unnamed/part_000, the activity
worker from src/unnamed/part_005, and `FSMContext` helpers from
src/fsm/fsm_models.go.

Modelling conventions, used throughout:
* Go pointer fields are `Option` values.  Where the Go code dereferences a
  pointer without a nil check (panicking on nil), the model uses
  `Option.getD` with the Go zero value; theorems about such code carry
  well-formedness hypotheses that rule the nil case out, so the default is
  never exercised where it matters.  Where nil-dereference behaviour is
  itself the subject of a claim the model returns an explicit error.
* Go maps are association lists wrapped in `Option`: `none` is a nil Go
  map, `some []` an allocated empty map (the correlator's lazy
  initialization distinguishes the two).
* `StateSerializer` is an interface in Go; the model carries one typed
  serialize/deserialize function pair per payload type, each returning the
  produced value together with an optional error, mirroring Go's
  `(value, err)` convention in which a partially filled value is returned
  even on error.
* Go `int64` event ids are unbounded `Int` (no claim depends on their
  overflow); the `uint64` state version is wrapped explicitly modulo 2^64
  because a claim depends on its arithmetic.
-/

namespace Swfsm

/-- Association-list map with string keys, modelling a Go `map[string]V`.
`none` at the field level models a nil map. -/
abbrev SMap (α : Type) := List (String × α)

def smapGet {α : Type} (m : SMap α) (k : String) : Option α :=
  match m with
  | [] => none
  | (k', v) :: rest => if k' == k then some v else smapGet rest k

def smapPut {α : Type} (m : SMap α) (k : String) (v : α) : SMap α :=
  match m with
  | [] => [(k, v)]
  | (k', v') :: rest => if k' == k then (k, v) :: rest else (k', v') :: smapPut rest k v

def smapDel {α : Type} (m : SMap α) (k : String) : SMap α :=
  match m with
  | [] => []
  | (k', v') :: rest => if k' == k then smapDel rest k else (k', v') :: smapDel rest k

/-- Lookup in an optional (possibly nil) Go map; indexing a nil map reads as missing. -/
def oGet {α : Type} (m : Option (SMap α)) (k : String) : Option α :=
  smapGet (m.getD []) k

/-- Insert into an optional Go map (after `checkInit` the map is always allocated). -/
def oPut {α : Type} (m : Option (SMap α)) (k : String) (v : α) : Option (SMap α) :=
  some (smapPut (m.getD []) k v)

/-- Go `delete` on an optional map. -/
def oDel {α : Type} (m : Option (SMap α)) (k : String) : Option (SMap α) :=
  some (smapDel (m.getD []) k)

/-! ### History events (subset of `swf.HistoryEvent` used by the embedded code) -/

structure MarkerRecordedEventAttributes where
  markerName : Option String
  details : Option String
  deriving Repr, DecidableEq

structure ActivityType where
  name : Option String
  version : Option String
  deriving Repr, DecidableEq

structure ActivityTaskScheduledEventAttributes where
  activityId : Option String
  activityType : Option ActivityType
  deriving Repr, DecidableEq

/-- Attributes carrying only a `ScheduledEventId` (activity terminal events). -/
structure ScheduledEventIdAttributes where
  scheduledEventId : Option Int
  deriving Repr, DecidableEq

/-- Attributes carrying only an `InitiatedEventId` (signal/cancel/child terminal events). -/
structure InitiatedEventIdAttributes where
  initiatedEventId : Option Int
  deriving Repr, DecidableEq

structure SignalExternalWorkflowExecutionInitiatedEventAttributes where
  signalName : Option String
  workflowId : Option String
  deriving Repr, DecidableEq

structure TimerStartedEventAttributes where
  control : Option String
  timerId : Option String
  deriving Repr, DecidableEq

/-- Attributes carrying only a `StartedEventId` (timer terminal events). -/
structure StartedEventIdAttributes where
  startedEventId : Option Int
  deriving Repr, DecidableEq

structure RequestCancelExternalWorkflowExecutionInitiatedEventAttributes where
  workflowId : Option String
  deriving Repr, DecidableEq

structure WorkflowType where
  name : Option String
  version : Option String
  deriving Repr, DecidableEq

structure StartChildWorkflowExecutionInitiatedEventAttributes where
  workflowId : Option String
  workflowType : Option WorkflowType
  deriving Repr, DecidableEq

structure WorkflowExecutionSignaledEventAttributes where
  signalName : Option String
  input : Option String
  externalInitiatedEventId : Option Int
  deriving Repr, DecidableEq

structure WorkflowExecutionStartedEventAttributes where
  input : Option String
  deriving Repr, DecidableEq

structure HistoryEvent where
  eventId : Option Int := none
  eventType : Option String := none
  markerRecordedEventAttributes : Option MarkerRecordedEventAttributes := none
  activityTaskScheduledEventAttributes : Option ActivityTaskScheduledEventAttributes := none
  activityTaskCompletedEventAttributes : Option ScheduledEventIdAttributes := none
  activityTaskFailedEventAttributes : Option ScheduledEventIdAttributes := none
  activityTaskTimedOutEventAttributes : Option ScheduledEventIdAttributes := none
  activityTaskCanceledEventAttributes : Option ScheduledEventIdAttributes := none
  activityTaskStartedEventAttributes : Option ScheduledEventIdAttributes := none
  signalExternalWorkflowExecutionInitiatedEventAttributes :
    Option SignalExternalWorkflowExecutionInitiatedEventAttributes := none
  externalWorkflowExecutionSignaledEventAttributes : Option InitiatedEventIdAttributes := none
  signalExternalWorkflowExecutionFailedEventAttributes : Option InitiatedEventIdAttributes := none
  timerStartedEventAttributes : Option TimerStartedEventAttributes := none
  timerFiredEventAttributes : Option StartedEventIdAttributes := none
  timerCanceledEventAttributes : Option StartedEventIdAttributes := none
  requestCancelExternalWorkflowExecutionInitiatedEventAttributes :
    Option RequestCancelExternalWorkflowExecutionInitiatedEventAttributes := none
  requestCancelExternalWorkflowExecutionFailedEventAttributes : Option InitiatedEventIdAttributes := none
  externalWorkflowExecutionCancelRequestedEventAttributes : Option InitiatedEventIdAttributes := none
  startChildWorkflowExecutionInitiatedEventAttributes :
    Option StartChildWorkflowExecutionInitiatedEventAttributes := none
  startChildWorkflowExecutionFailedEventAttributes : Option InitiatedEventIdAttributes := none
  childWorkflowExecutionStartedEventAttributes : Option InitiatedEventIdAttributes := none
  workflowExecutionSignaledEventAttributes : Option WorkflowExecutionSignaledEventAttributes := none
  workflowExecutionStartedEventAttributes : Option WorkflowExecutionStartedEventAttributes := none
  deriving Repr, DecidableEq

/-! ### Event-type and marker-name constants (src/fsm/fsm_models.go and the swf API) -/

def StateMarker : String := "FSM.State"
def CorrelatorMarker : String := "FSM.Correlator"
def ErrorMarker : String := "FSM.Error"
def ContinueTimer : String := "FSM.ContinueWorkflow"
def ContinueSignal : String := "FSM.ContinueWorkflow"
/-- Modelled from the spec: signal names recognized by the correlator
(`ActivityStarted`, `ActivityUpdated`); the constants' defining file is not
under src/, only their uses in part_003 and part_005. -/
def ActivityStartedSignal : String := "ActivityStarted"
def ActivityUpdatedSignal : String := "ActivityUpdated"

def eventTypeActivityTaskScheduled : String := "ActivityTaskScheduled"
def eventTypeActivityTaskCompleted : String := "ActivityTaskCompleted"
def eventTypeActivityTaskFailed : String := "ActivityTaskFailed"
def eventTypeActivityTaskTimedOut : String := "ActivityTaskTimedOut"
def eventTypeActivityTaskCanceled : String := "ActivityTaskCanceled"
def eventTypeActivityTaskStarted : String := "ActivityTaskStarted"
def eventTypeSignalExternalWorkflowExecutionInitiated : String :=
  "SignalExternalWorkflowExecutionInitiated"
def eventTypeExternalWorkflowExecutionSignaled : String := "ExternalWorkflowExecutionSignaled"
def eventTypeSignalExternalWorkflowExecutionFailed : String := "SignalExternalWorkflowExecutionFailed"
def eventTypeTimerStarted : String := "TimerStarted"
def eventTypeTimerFired : String := "TimerFired"
def eventTypeTimerCanceled : String := "TimerCanceled"
def eventTypeRequestCancelExternalWorkflowExecutionInitiated : String :=
  "RequestCancelExternalWorkflowExecutionInitiated"
def eventTypeRequestCancelExternalWorkflowExecutionFailed : String :=
  "RequestCancelExternalWorkflowExecutionFailed"
def eventTypeExternalWorkflowExecutionCancelRequested : String :=
  "ExternalWorkflowExecutionCancelRequested"
def eventTypeStartChildWorkflowExecutionInitiated : String := "StartChildWorkflowExecutionInitiated"
def eventTypeStartChildWorkflowExecutionFailed : String := "StartChildWorkflowExecutionFailed"
def eventTypeChildWorkflowExecutionStarted : String := "ChildWorkflowExecutionStarted"
def eventTypeWorkflowExecutionSignaled : String := "WorkflowExecutionSignaled"
def eventTypeWorkflowExecutionStarted : String := "WorkflowExecutionStarted"
def eventTypeMarkerRecorded : String := "MarkerRecorded"
def eventTypeDecisionTaskCompleted : String := "DecisionTaskCompleted"
def eventTypeDecisionTaskScheduled : String := "DecisionTaskScheduled"
def eventTypeDecisionTaskStarted : String := "DecisionTaskStarted"

/-! ### Correlator info records (src/unnamed/part_001) -/

structure ActivityInfo where
  activityId : String
  activityType : Option ActivityType
  deriving Repr, DecidableEq

structure SignalInfo where
  signalName : String
  workflowId : String
  deriving Repr, DecidableEq

structure TimerInfo where
  control : String
  timerId : String
  deriving Repr, DecidableEq

structure CancellationInfo where
  workflowId : String
  deriving Repr, DecidableEq

structure ChildInfo where
  workflowId : String
  workflowType : Option WorkflowType
  deriving Repr, DecidableEq

/-- `SerializedActivityState` (payload of `ActivityStarted`/`ActivityUpdated` signals). -/
structure SerializedActivityState where
  activityId : String
  input : Option String
  deriving Repr, DecidableEq

/-- `EventCorrelator` (src/unnamed/part_001).  The Go struct's `Serializer`
field (a `StateSerializer` interface) is modelled by the single typed
deserialization it performs, `deserActState`, used by `getId` on
`ActivityStarted`/`ActivityUpdated` signals: it returns the decoded value
(the error is discarded by the source at that call site). -/
structure EventCorrelator where
  activities : Option (SMap ActivityInfo) := none
  activityAttempts : Option (SMap Int) := none
  signals : Option (SMap SignalInfo) := none
  signalAttempts : Option (SMap Int) := none
  timers : Option (SMap TimerInfo) := none
  cancellations : Option (SMap CancellationInfo) := none
  cancelationAttempts : Option (SMap Int) := none
  children : Option (SMap ChildInfo) := none
  childrenAttempts : Option (SMap Int) := none
  deserActState : String → SerializedActivityState := fun _ => { activityId := "", input := none }
  toForget : Option HistoryEvent := none

namespace EventCorrelator

/-- `key`: `strconv.FormatInt(*eventId, 10)` (Go panics on nil; the model uses 0). -/
def key (eventId : Option Int) : String := toString (eventId.getD 0)

def nilSafeEq (sv : Option String) (s : String) : Bool :=
  match sv with
  | none => false
  | some v => v == s

/-- `checkInit`: allocate every nil map. -/
def checkInit (a : EventCorrelator) : EventCorrelator :=
  { a with
    activities := some (a.activities.getD [])
    activityAttempts := some (a.activityAttempts.getD [])
    signals := some (a.signals.getD [])
    signalAttempts := some (a.signalAttempts.getD [])
    timers := some (a.timers.getD [])
    cancellations := some (a.cancellations.getD [])
    cancelationAttempts := some (a.cancelationAttempts.getD [])
    children := some (a.children.getD [])
    childrenAttempts := some (a.childrenAttempts.getD []) }

/-- `getId`: per-event-kind extraction of the correlation key.  Each case
checks the attribute record for nil exactly as the source does; unknown
event types yield `""`.  A nil `EventType` is dereferenced by the source
(`switch *h.EventType`); the model reads it as `""`, falling to the
default case. -/
def getId (a : EventCorrelator) (h : HistoryEvent) : String :=
  match h.eventType.getD "" with
  | "ActivityTaskCompleted" =>
    match h.activityTaskCompletedEventAttributes with
    | some attrs => key attrs.scheduledEventId
    | none => ""
  | "ActivityTaskFailed" =>
    match h.activityTaskFailedEventAttributes with
    | some attrs => key attrs.scheduledEventId
    | none => ""
  | "ActivityTaskTimedOut" =>
    match h.activityTaskTimedOutEventAttributes with
    | some attrs => key attrs.scheduledEventId
    | none => ""
  | "ActivityTaskCanceled" =>
    match h.activityTaskCanceledEventAttributes with
    | some attrs => key attrs.scheduledEventId
    | none => ""
  | "ActivityTaskStarted" =>
    match h.activityTaskStartedEventAttributes with
    | some attrs => key attrs.scheduledEventId
    | none => ""
  | "ExternalWorkflowExecutionSignaled" =>
    match h.externalWorkflowExecutionSignaledEventAttributes with
    | some attrs => key attrs.initiatedEventId
    | none => ""
  | "SignalExternalWorkflowExecutionFailed" =>
    match h.signalExternalWorkflowExecutionFailedEventAttributes with
    | some attrs => key attrs.initiatedEventId
    | none => ""
  | "RequestCancelExternalWorkflowExecutionFailed" =>
    match h.requestCancelExternalWorkflowExecutionFailedEventAttributes with
    | some attrs => key attrs.initiatedEventId
    | none => ""
  | "ExternalWorkflowExecutionCancelRequested" =>
    match h.externalWorkflowExecutionCancelRequestedEventAttributes with
    | some attrs => key attrs.initiatedEventId
    | none => ""
  | "TimerFired" =>
    match h.timerFiredEventAttributes with
    | some attrs => key attrs.startedEventId
    | none => ""
  | "TimerCanceled" =>
    match h.timerCanceledEventAttributes with
    | some attrs => key attrs.startedEventId
    | none => ""
  | "WorkflowExecutionSignaled" =>
    match h.workflowExecutionSignaledEventAttributes with
    | some attrs =>
      match attrs.signalName, attrs.input with
      | some sig, some input =>
        if sig == ActivityStartedSignal || sig == ActivityUpdatedSignal then
          (a.deserActState input).activityId
        else
          key attrs.externalInitiatedEventId
      | _, _ => ""
    | none => ""
  | "ChildWorkflowExecutionStarted" =>
    match h.childWorkflowExecutionStartedEventAttributes with
    | some attrs => key attrs.initiatedEventId
    | none => ""
  | "StartChildWorkflowExecutionFailed" =>
    match h.startChildWorkflowExecutionFailedEventAttributes with
    | some attrs => key attrs.initiatedEventId
    | none => ""
  | _ => ""

def safeActivityId (a : EventCorrelator) (h : HistoryEvent) : String :=
  match oGet a.activities (a.getId h) with
  | some info => info.activityId
  | none => ""

def signalIdFromInfo (info : SignalInfo) : String :=
  info.signalName ++ "->" ++ info.workflowId

def safeSignalId (a : EventCorrelator) (h : HistoryEvent) : String :=
  match oGet a.signals (a.getId h) with
  | some info => signalIdFromInfo info
  | none => ""

def safeCancellationId (a : EventCorrelator) (h : HistoryEvent) : String :=
  match oGet a.cancellations (a.getId h) with
  | some info => info.workflowId
  | none => ""

def safeChildId (a : EventCorrelator) (h : HistoryEvent) : String :=
  match oGet a.children (a.getId h) with
  | some info => info.workflowId
  | none => ""

/-- Go compares `a.toForget == h` on pointers; the model compares values. -/
def isToForget (a : EventCorrelator) (h : HistoryEvent) : Bool :=
  match a.toForget with
  | some g => g == h
  | none => false

def incrementActivityAttempts (a : EventCorrelator) (h : HistoryEvent) : EventCorrelator :=
  let id := a.safeActivityId h
  if a.isToForget h then
    { a with activityAttempts := oDel a.activityAttempts id, toForget := none }
  else if id != "" then
    { a with activityAttempts := oPut a.activityAttempts id ((oGet a.activityAttempts id).getD 0 + 1) }
  else a

def incrementSignalAttempts (a : EventCorrelator) (h : HistoryEvent) : EventCorrelator :=
  let id := a.safeSignalId h
  if a.isToForget h then
    { a with signalAttempts := oDel a.signalAttempts id, toForget := none }
  else if id != "" then
    { a with signalAttempts := oPut a.signalAttempts id ((oGet a.signalAttempts id).getD 0 + 1) }
  else a

def incrementCancellationAttempts (a : EventCorrelator) (h : HistoryEvent) : EventCorrelator :=
  let id := a.safeCancellationId h
  if a.isToForget h then
    { a with cancelationAttempts := oDel a.cancelationAttempts id, toForget := none }
  else if id != "" then
    { a with cancelationAttempts := oPut a.cancelationAttempts id ((oGet a.cancelationAttempts id).getD 0 + 1) }
  else a

def incrementChildAttempts (a : EventCorrelator) (h : HistoryEvent) : EventCorrelator :=
  let id := a.safeChildId h
  if a.isToForget h then
    { a with childrenAttempts := oDel a.childrenAttempts id, toForget := none }
  else if id != "" then
    { a with childrenAttempts := oPut a.childrenAttempts id ((oGet a.childrenAttempts id).getD 0 + 1) }
  else a

/-- `Correlate`: adds entries for initiating events (nil-checked via `nilSafeEq`).
Attribute-record dereferences (which panic on nil in Go) read the zero
value here; theorems supply well-formed events. -/
def correlate (a0 : EventCorrelator) (h : HistoryEvent) : EventCorrelator :=
  let a := a0.checkInit
  let a :=
    if nilSafeEq h.eventType eventTypeActivityTaskScheduled then
      let info : ActivityInfo :=
        { activityId := (h.activityTaskScheduledEventAttributes.bind (·.activityId)).getD ""
          activityType := h.activityTaskScheduledEventAttributes.bind (·.activityType) }
      { a with activities := oPut a.activities (key h.eventId) info }
    else a
  let a :=
    if nilSafeEq h.eventType eventTypeSignalExternalWorkflowExecutionInitiated then
      let info : SignalInfo :=
        { signalName := (h.signalExternalWorkflowExecutionInitiatedEventAttributes.bind (·.signalName)).getD ""
          workflowId := (h.signalExternalWorkflowExecutionInitiatedEventAttributes.bind (·.workflowId)).getD "" }
      { a with signals := oPut a.signals (key h.eventId) info }
    else a
  let a :=
    if nilSafeEq h.eventType eventTypeRequestCancelExternalWorkflowExecutionInitiated then
      let info : CancellationInfo :=
        { workflowId := (h.requestCancelExternalWorkflowExecutionInitiatedEventAttributes.bind (·.workflowId)).getD "" }
      { a with cancellations := oPut a.cancellations (key h.eventId) info }
    else a
  let a :=
    if nilSafeEq h.eventType eventTypeTimerStarted then
      let info : TimerInfo :=
        { control := (h.timerStartedEventAttributes.bind (·.control)).getD ""
          timerId := (h.timerStartedEventAttributes.bind (·.timerId)).getD "" }
      { a with timers := oPut a.timers (key h.eventId) info }
    else a
  let a :=
    if nilSafeEq h.eventType eventTypeStartChildWorkflowExecutionInitiated then
      let info : ChildInfo :=
        { workflowId := (h.startChildWorkflowExecutionInitiatedEventAttributes.bind (·.workflowId)).getD ""
          workflowType := h.startChildWorkflowExecutionInitiatedEventAttributes.bind (·.workflowType) }
      { a with children := oPut a.children (key h.eventId) info }
    else a
  a

/-- `RemoveCorrelation`: removals keyed by terminal events; attempts are
incremented (or cleared for completed/canceled) before the outstanding
record is deleted.  For `ExternalWorkflowExecutionSignaled`,
`ExternalWorkflowExecutionCancelRequested` and
`ChildWorkflowExecutionStarted` the source dereferences the looked-up
info record without a nil check (panicking when absent); the model uses
its zero value there. -/
def removeCorrelation (a0 : EventCorrelator) (h : HistoryEvent) : EventCorrelator :=
  let a := a0.checkInit
  match h.eventType with
  | none => a
  | some t =>
    match t with
    | "ActivityTaskCompleted" =>
      let a := { a with activityAttempts := oDel a.activityAttempts (a.safeActivityId h) }
      let k := key (h.activityTaskCompletedEventAttributes.bind (·.scheduledEventId))
      { a with activities := oDel a.activities k }
    | "ActivityTaskFailed" =>
      let a := a.incrementActivityAttempts h
      let k := key (h.activityTaskFailedEventAttributes.bind (·.scheduledEventId))
      { a with activities := oDel a.activities k }
    | "ActivityTaskTimedOut" =>
      let a := a.incrementActivityAttempts h
      let k := key (h.activityTaskTimedOutEventAttributes.bind (·.scheduledEventId))
      { a with activities := oDel a.activities k }
    | "ActivityTaskCanceled" =>
      let a := { a with activityAttempts := oDel a.activityAttempts (a.safeActivityId h) }
      let k := key (h.activityTaskCanceledEventAttributes.bind (·.scheduledEventId))
      { a with activities := oDel a.activities k }
    | "ExternalWorkflowExecutionSignaled" =>
      let k := key (h.externalWorkflowExecutionSignaledEventAttributes.bind (·.initiatedEventId))
      let info := (oGet a.signals k).getD ({ signalName := "", workflowId := "" })
      let a := { a with signalAttempts := oDel a.signalAttempts (signalIdFromInfo info) }
      { a with signals := oDel a.signals k }
    | "SignalExternalWorkflowExecutionFailed" =>
      let a := a.incrementSignalAttempts h
      let k := key (h.signalExternalWorkflowExecutionFailedEventAttributes.bind (·.initiatedEventId))
      { a with signals := oDel a.signals k }
    | "TimerFired" =>
      let k := key (h.timerFiredEventAttributes.bind (·.startedEventId))
      { a with timers := oDel a.timers k }
    | "TimerCanceled" =>
      let k := key (h.timerCanceledEventAttributes.bind (·.startedEventId))
      { a with timers := oDel a.timers k }
    | "RequestCancelExternalWorkflowExecutionFailed" =>
      let a := a.incrementCancellationAttempts h
      let k := key (h.requestCancelExternalWorkflowExecutionFailedEventAttributes.bind (·.initiatedEventId))
      { a with cancellations := oDel a.cancellations k }
    | "ExternalWorkflowExecutionCancelRequested" =>
      let k := key (h.externalWorkflowExecutionCancelRequestedEventAttributes.bind (·.initiatedEventId))
      let info := (oGet a.cancellations k).getD ({ workflowId := "" })
      let a := { a with cancelationAttempts := oDel a.cancelationAttempts info.workflowId }
      { a with cancellations := oDel a.cancellations k }
    | "StartChildWorkflowExecutionFailed" =>
      let a := a.incrementChildAttempts h
      let k := key (h.startChildWorkflowExecutionFailedEventAttributes.bind (·.initiatedEventId))
      { a with children := oDel a.children k }
    | "ChildWorkflowExecutionStarted" =>
      let k := key (h.childWorkflowExecutionStartedEventAttributes.bind (·.initiatedEventId))
      let info := (oGet a.children k).getD ({ workflowId := "", workflowType := none })
      let a := { a with childrenAttempts := oDel a.childrenAttempts info.workflowId }
      { a with children := oDel a.children k }
    | _ => a

/-- `Track(h) = RemoveCorrelation(h); Correlate(h)`. -/
def track (a : EventCorrelator) (h : HistoryEvent) : EventCorrelator :=
  (a.removeCorrelation h).correlate h

/-- `AttemptsForActivity`.  The source dereferences `info.ActivityId`
without a nil check: a nil info panics (modelled as `.error`).  The first
component is the correlator after the method's only mutation
(`checkInit`). -/
def attemptsForActivity (a0 : EventCorrelator) (info : Option ActivityInfo) :
    EventCorrelator × Except String Int :=
  let a := a0.checkInit
  match info with
  | none => (a, .error "runtime error: invalid memory address or nil pointer dereference")
  | some i => (a, .ok ((oGet a.activityAttempts i.activityId).getD 0))

/-- `AttemptsForSignal`.  `signalIdFromInfo` dereferences the info record:
nil panics. -/
def attemptsForSignal (a0 : EventCorrelator) (info : Option SignalInfo) :
    EventCorrelator × Except String Int :=
  let a := a0.checkInit
  match info with
  | none => (a, .error "runtime error: invalid memory address or nil pointer dereference")
  | some i => (a, .ok ((oGet a.signalAttempts (signalIdFromInfo i)).getD 0))

/-- `AttemptsForCancellation`: explicitly returns 0 for nil info or empty id. -/
def attemptsForCancellation (a0 : EventCorrelator) (info : Option CancellationInfo) :
    EventCorrelator × Except String Int :=
  let a := a0.checkInit
  match info with
  | none => (a, .ok 0)
  | some i =>
    if i.workflowId == "" then (a, .ok 0)
    else (a, .ok ((oGet a.cancelationAttempts i.workflowId).getD 0))

/-- `AttemptsForChild`: explicitly returns 0 for nil info or empty id. -/
def attemptsForChild (a0 : EventCorrelator) (info : Option ChildInfo) :
    EventCorrelator × Except String Int :=
  let a := a0.checkInit
  match info with
  | none => (a, .ok 0)
  | some i =>
    if i.workflowId == "" then (a, .ok 0)
    else (a, .ok ((oGet a.childrenAttempts i.workflowId).getD 0))

end EventCorrelator


/-! ### FSM data model (src/unnamed/part_003 and src/fsm/fsm_models.go) -/

/-- `swf.RecordMarkerDecisionAttributes` (both fields dereferenced, so plain). -/
structure RecordMarkerDecisionAttributes where
  markerName : String
  details : String
  deriving Repr, DecidableEq

structure ContinueAsNewWorkflowExecutionDecisionAttributes where
  input : Option String
  deriving Repr, DecidableEq

/-- `swf.Decision`, restricted to the fields the embedded code constructs or
inspects.  Decisions produced by user deciders are carried opaquely. -/
structure Decision where
  decisionType : String
  recordMarkerDecisionAttributes : Option RecordMarkerDecisionAttributes := none
  continueAsNewWorkflowExecutionDecisionAttributes :
    Option ContinueAsNewWorkflowExecutionDecisionAttributes := none
  deriving Repr, DecidableEq

/-- `SerializedState`.  src/fsm/fsm_models.go shows an earlier revision
without `workflowId`; part_003 (`recordStateMarkers`) and the spec (§3)
give the current shape, so the extra field is `Modelled from the spec:`
`workflowId` mirrors `WorkflowId` in the `FSM.State` marker payload. -/
structure SerializedState where
  stateVersion : Nat
  stateName : String
  stateData : String
  workflowId : String
  deriving Repr, DecidableEq

/-- `SerializedErrorState`.  src/fsm/fsm_models.go shows an earlier
revision without `details`; part_003 (`FSM.Tick`) and the spec (§3) give
the current shape, so `details` is `Modelled from the spec:` it carries
the unrescued error text. -/
structure SerializedErrorState where
  details : String
  errorEvent : HistoryEvent
  earliestUnprocessedEventId : Int
  latestUnprocessedEventId : Int
  deriving Repr, DecidableEq

/-- `swf.PollForDecisionTaskOutput`, with the always-dereferenced pointer
fields flattened to plain values. -/
structure DecisionTask where
  taskToken : Option String := none
  workflowId : String := ""
  runId : String := ""
  workflowTypeName : String := ""
  workflowTypeVersion : String := ""
  previousStartedEventId : Int := 0
  startedEventId : Int := 0
  events : List HistoryEvent := []
  deriving Repr, DecidableEq

/-- `Outcome` of a decider. -/
structure Outcome (D : Type) where
  state : String
  data : D
  decisions : List Decision

/-- `FSMContext` (current revision; src/fsm/fsm_models.go shows the same
fields with an embedded workflow type/execution). -/
structure FSMContext (D : Type) where
  workflowTypeName : String
  workflowId : String
  runId : String
  eventCorrelator : EventCorrelator
  state : String
  stateData : Option D
  stateVersion : Nat

/-- Result of running a decider under `panicSafeDecide`: either an outcome
or a recovered panic message. -/
inductive DeciderResult (D : Type) where
  | ok (outcome : Outcome D)
  | panic (msg : String)

abbrev Decider (D : Type) := FSMContext D → HistoryEvent → D → DeciderResult D

structure FSMState (D : Type) where
  name : String
  decider : Decider D

/-- `DecisionErrorHandler`: `(ctx, event, stateBeforeEvent, stateAfterError, err)
→ (*Outcome, error)`. -/
abbrev DecisionErrorHandler (D : Type) :=
  FSMContext D → HistoryEvent → D → D → Option String → Option (Outcome D) × Option String

/-- Go `Serialize` convention: the produced string together with an optional
error (`""` is what the shipped serializers return on error). -/
abbrev SerFn (α : Type) := α → String × Option String

/-- Go `Deserialize` convention: the target value as left by the call (it
may be partially filled on error) together with the optional error. -/
abbrev DeserFn (α : Type) := String → α × Option String

/-- The `FSM` configuration (src/unnamed/part_003).  The two
`StateSerializer` interface fields (`Serializer`, `SystemSerializer`) are
flattened into one typed function per (serializer, payload-type) pair that
the embedded code actually uses; `stasher` is `Modelled from the spec:`
its file is not under src/, the spec (§4.2.2, §9) describes it as a
serialize/deserialize deep-copy round-trip.  Interceptors are modelled as
pure transformers of the values the Go hooks may mutate. -/
structure FSM (D : Type) where
  initialStateName : String
  states : SMap (FSMState D)
  errorHandlers : SMap (DecisionErrorHandler D)
  decisionErrorHandler : DecisionErrorHandler D
  allowPanics : Bool
  serializeData : SerFn D
  deserializeData : DeserFn D
  deserializeStartState : DeserFn SerializedState
  serializeUserState : SerFn SerializedState
  deserializeCorrelator : DeserFn EventCorrelator
  deserializeErrorState : DeserFn SerializedErrorState
  sysSerializeState : SerFn SerializedState
  sysDeserializeState : DeserFn SerializedState
  sysSerializeCorrelator : SerFn EventCorrelator
  sysSerializeErrorState : SerFn SerializedErrorState
  sysSerializeTask : SerFn DecisionTask
  sysDeserializeTask : DeserFn DecisionTask
  sysDeserActState : String → SerializedActivityState
  stasherStash : D → String
  stasherUnstash : String → D
  beforeTask : DecisionTask → DecisionTask
  beforeDecision : DecisionTask → FSMContext D → Outcome D → Outcome D
  afterDecision : DecisionTask → FSMContext D → Outcome D → Outcome D

/-- `*e.EventType` (Go panics on nil; the model reads `""`). -/
def eventTypeOf (e : HistoryEvent) : String := e.eventType.getD ""

/-- `*e.EventId` (Go panics on nil; the model reads 0). -/
def eventIdOf (e : HistoryEvent) : Int := e.eventId.getD 0

def markerNameOf (e : HistoryEvent) : String :=
  (e.markerRecordedEventAttributes.bind (·.markerName)).getD ""

def markerDetailsOf (e : HistoryEvent) : String :=
  (e.markerRecordedEventAttributes.bind (·.details)).getD ""

def startedInputOf (e : HistoryEvent) : String :=
  (e.workflowExecutionStartedEventAttributes.bind (·.input)).getD ""

def isStateMarker (e : HistoryEvent) : Bool :=
  eventTypeOf e == eventTypeMarkerRecorded && markerNameOf e == StateMarker

def isCorrelatorMarker (e : HistoryEvent) : Bool :=
  eventTypeOf e == eventTypeMarkerRecorded && markerNameOf e == CorrelatorMarker

def isErrorMarker (e : HistoryEvent) : Bool :=
  eventTypeOf e == eventTypeMarkerRecorded && markerNameOf e == ErrorMarker

variable {D : Type}

/-- `statefulHistoryEventToSerializedState`: a state marker decodes via the
system serializer; a `WorkflowExecutionStarted` event decodes its input via
the user serializer and, on success, substitutes the initial state for an
empty state name. -/
def statefulHistoryEventToSerializedState (f : FSM D) (event : HistoryEvent) :
    Option SerializedState × Option String :=
  if isStateMarker event then
    (some (f.sysDeserializeState (markerDetailsOf event)).fst,
     (f.sysDeserializeState (markerDetailsOf event)).snd)
  else if eventTypeOf event == eventTypeWorkflowExecutionStarted then
    match f.deserializeStartState (startedInputOf event) with
    | (state, none) =>
      if state.stateName == "" then (some ({ state with stateName := f.initialStateName }), none)
      else (some state, none)
    | (state, some e) => (some state, some e)
  else (none, none)

def findSerializedState (f : FSM D) : List HistoryEvent → Option SerializedState × Option String
  | [] => (none, some "Cant Find Current Data")
  | event :: rest =>
    match statefulHistoryEventToSerializedState f event with
    | (none, none) => findSerializedState f rest
    | r => r

/-- `findSerializedEventCorrelator`: the first correlator marker decodes
via the user serializer (as in the source) into a correlator whose
`Serializer` field is the system serializer; absent a marker, a fresh
correlator with the system serializer is returned. -/
def findSerializedEventCorrelator (f : FSM D) : List HistoryEvent → EventCorrelator × Option String
  | [] => ({ deserActState := f.sysDeserActState }, none)
  | event :: rest =>
    if isCorrelatorMarker event then
      ({ (f.deserializeCorrelator (markerDetailsOf event)).fst with
          deserActState := f.sysDeserActState },
       (f.deserializeCorrelator (markerDetailsOf event)).snd)
    else findSerializedEventCorrelator f rest

/-- `findSerializedErrorState`: note the source returns the (possibly
partially decoded) error state even when deserialization fails, and `Tick`
ignores the error component. -/
def findSerializedErrorState (f : FSM D) : List HistoryEvent → Option SerializedErrorState × Option String
  | [] => (none, none)
  | event :: rest =>
    if isErrorMarker event then
      (some (f.deserializeErrorState (markerDetailsOf event)).fst,
       (f.deserializeErrorState (markerDetailsOf event)).snd)
    else findSerializedErrorState f rest

/-- `findLastEvents`: walk newest-first history, stopping at the event with
id `prevStarted`, skipping decision-task bookkeeping events and the
state/correlator markers (error markers are not skipped). -/
def findLastEvents (prevStarted : Int) : List HistoryEvent → List HistoryEvent
  | [] => []
  | event :: rest =>
    if eventIdOf event == prevStarted then []
    else if eventTypeOf event == eventTypeDecisionTaskCompleted
        || eventTypeOf event == eventTypeDecisionTaskScheduled
        || eventTypeOf event == eventTypeDecisionTaskStarted then
      findLastEvents prevStarted rest
    else if eventTypeOf event == eventTypeMarkerRecorded then
      if !(isStateMarker event) && !(isCorrelatorMarker event) then
        event :: findLastEvents prevStarted rest
      else findLastEvents prevStarted rest
    else event :: findLastEvents prevStarted rest

def recordStringMarker (markerName : String) (details : String) : Decision :=
  { decisionType := "RecordMarker"
    recordMarkerDecisionAttributes := some ({ markerName := markerName, details := details }) }

/-- 2^64: the wrap modulus of the Go `uint64` state version. -/
def U64 : Nat := 2 ^ 64

/-- `recordStateMarkers`: emits the refreshed state marker, the correlator
marker, optionally an error marker, then the outcome's decisions, and the
updated `SerializedState` (version incremented, wrapping as `uint64`).
The result triple mirrors Go's `([]*swf.Decision, *SerializedState,
error)`.  The error of serializing the outcome data is shadowed by the
next assignment before being checked in the source, so it is dropped
here too. -/
def recordStateMarkers (f : FSM D) (ctx : FSMContext D) (outcome : Outcome D)
    (eventCorrelator : EventCorrelator) (errorState : Option SerializedErrorState) :
    List Decision × SerializedState × Option String :=
  let serializedData := (f.serializeData outcome.data).fst
  let state : SerializedState :=
    { stateVersion := (ctx.stateVersion + 1) % U64
      stateName := outcome.state
      stateData := serializedData
      workflowId := ctx.workflowId }
  match f.sysSerializeState state with
  | (_, some e) => ([], state, some e)
  | (serializedMarker, none) =>
    match f.sysSerializeCorrelator eventCorrelator with
    | (_, some e) => ([], state, some e)
    | (serializedCorrelator, none) =>
      let d := recordStringMarker StateMarker serializedMarker
      let c := recordStringMarker CorrelatorMarker serializedCorrelator
      let decisions := [d, c]
      match errorState with
      | some es =>
        match f.sysSerializeErrorState es with
        | (_, some e) => ([], state, some e)
        | (serializedError, none) =>
          (decisions ++ [recordStringMarker ErrorMarker serializedError] ++ outcome.decisions,
           state, none)
      | none => (decisions ++ outcome.decisions, state, none)

/-- `mergeOutcomes`. -/
def mergeOutcomes (final : Outcome D) (intermediate : Outcome D) : Outcome D :=
  { decisions := final.decisions ++ intermediate.decisions
    data := intermediate.data
    state := if intermediate.state != "" then intermediate.state else final.state }

/-- `FSMContext.Decide` (src/fsm/fsm_models.go): run the decider, then
track the event in the context's correlator.  A panicking decider leaves
the correlator untracked. -/
def contextDecide (ctx : FSMContext D) (h : HistoryEvent) (data : D) (decider : Decider D) :
    DeciderResult D × FSMContext D :=
  match decider ctx h data with
  | .panic msg => (.panic msg, ctx)
  | .ok outcome => (.ok outcome, { ctx with eventCorrelator := ctx.eventCorrelator.track h })


/-- Outcome of the decider fold in `Tick` (lines 508-562 of part_003):
all events folded, a panic whose handler returned nil (to be recorded as
an error marker), a state missing from the FSM, or a propagated panic
(`AllowPanics`). -/
inductive FoldResult (D : Type) where
  | done (outcome : Outcome D)
  | recordError (errorState : SerializedErrorState) (outcome : Outcome D)
  | missingState (outcome : Outcome D)
  | panicked (msg : String)

/-- The fold over the unprocessed events (oldest first, i.e. the Go loop
`for i := len(lastEvents)-1; i >= 0; i--` applied to the reversed list).
Each step stashes the data, runs the decider under panic recovery, and on
an unrescued panic builds the `SerializedErrorState` recorded by `Tick`. -/
def foldEvents (f : FSM D) (task : DecisionTask) :
    FSMContext D → Outcome D → List HistoryEvent → FSMContext D × FoldResult D
  | ctx, outcome, [] => (ctx, .done outcome)
  | ctx, outcome, e :: rest =>
    match smapGet f.states outcome.state with
    | none => (ctx, .missingState outcome)
    | some fsmState =>
      let ctx := { ctx with state := outcome.state, stateData := some outcome.data }
      let stashed := f.stasherStash outcome.data
      match contextDecide ctx e outcome.data fsmState.decider with
      | (.ok anOutcome, ctx') =>
        foldEvents f task ctx' (mergeOutcomes outcome anOutcome) rest
      | (.panic msg, _) =>
        if f.allowPanics then (ctx, .panicked msg)
        else
          let stashedData := f.stasherUnstash stashed
          let handler := (smapGet f.errorHandlers fsmState.name).getD f.decisionErrorHandler
          match handler ctx e stashedData outcome.data (some msg) with
          | (some rescued, _) =>
            foldEvents f task ctx (mergeOutcomes outcome rescued) rest
          | (none, notRescued) =>
            let errorState : SerializedErrorState :=
              { details := notRescued.getD ""
                errorEvent := e
                earliestUnprocessedEventId := task.previousStartedEventId + 1
                latestUnprocessedEventId := task.startedEventId }
            (ctx, .recordError errorState outcome)

/-- Result of `Tick`: mirrors Go's `(*FSMContext, []*swf.Decision,
*SerializedState, error)` return, with `.error` carrying the
`SerializedState` when the source returns one alongside the error, and
`.panic` modelling an uncaught Go panic. -/
inductive TickResult (D : Type) where
  | ok (ctx : FSMContext D) (decisions : List Decision) (serializedState : SerializedState)
  | error (serializedState : Option SerializedState) (msg : String)
  | panic (msg : String)

def tickDecisions : TickResult D → Option (List Decision)
  | .ok _ ds _ => some ds
  | _ => none

def tickSerializedState : TickResult D → Option SerializedState
  | .ok _ _ ss => some ss
  | _ => none

/-- The marker-recording tail shared by `Tick`'s success exits: record the
markers for the given context/outcome/error-state and return, mapping a
serialization error to the `ErrorSerializingStateData` failure (a panic
under `AllowPanics`). -/
def tickRecord (f : FSM D) (ctx1 : FSMContext D) (outc : Outcome D)
    (es? : Option SerializedErrorState) : TickResult D :=
  match recordStateMarkers f ctx1 outc ctx1.eventCorrelator es? with
  | (_, _, some e) => if f.allowPanics then .panic e else .error none e
  | (final, ss, none) => .ok ctx1 final ss

/-- The tail of `Tick` after the error-state branch: fold the unprocessed
events, run the `AfterDecision` interceptor, and record the markers. -/
def tickFinish (f : FSM D) (task : DecisionTask) (lastEvents : List HistoryEvent)
    (ctx : FSMContext D) (outcome : Outcome D) : TickResult D :=
  match foldEvents f task ctx outcome lastEvents.reverse with
  | (ctx1, .done outc) =>
    let ctx2 := { ctx1 with state := outc.state, stateData := some outc.data }
    tickRecord f ctx2 (f.afterDecision task ctx2 outc) none
  | (ctx1, .recordError es outc) => tickRecord f ctx1 outc (some es)
  | (_, .missingState outc) => .error none ("marked-state-not-in-fsm state=" ++ outc.state)
  | (_, .panicked msg) => .panic msg

/-- `ErrorStateTick`, parametrized by the `Tick` it re-enters (the source
calls `f.Tick` recursively; the recursion is closed below with a fuel
argument).  Faithful to the source, including its inverted success test:
after the shadow tick, `if err != nil` builds the recovered outcome from
the returned state (dereferencing it: nil panics) while a successful
shadow tick falls through to `return nil, err` with a nil error. -/
def errorStateTickAux (tickFn : FSM D → DecisionTask → TickResult D) (f : FSM D)
    (task : DecisionTask) (errState : SerializedErrorState) (ctx : FSMContext D) (data : D) :
    Except String (Option (Outcome D) × Option String) :=
  let handler := (smapGet f.errorHandlers ctx.state).getD f.decisionErrorHandler
  let (handled, notHandled) := handler ctx errState.errorEvent data data none
  match handled with
  | none => .ok (none, notHandled)
  | some _ =>
    match f.sysSerializeTask task with
    | (_, some e) => .ok (none, some e)
    | (s, none) =>
      match f.sysDeserializeTask s with
      | (_, some e) => .ok (none, some e)
      | (cloned, none) =>
        let filtered := task.events.filter (fun h => !(isErrorMarker h))
        let filteredTask :=
          { cloned with
            events := filtered
            startedEventId := errState.latestUnprocessedEventId
            previousStartedEventId := errState.earliestUnprocessedEventId }
        match tickFn f filteredTask with
        | .ok _ _ _ => .ok (none, none)
        | .error none _ => .error "runtime error: invalid memory address or nil pointer dereference"
        | .error (some ss) _ =>
          match f.deserializeData ss.stateData with
          | (_, some e) => .error e
          | (d, none) => .ok (some ({ state := ss.stateName, decisions := [], data := d } : Outcome D), none)
        | .panic msg => .error msg

/-- `Tick` (src/unnamed/part_003 lines 422-590), with a fuel argument
closing the `Tick -> ErrorStateTick -> Tick` recursion.  The shadow task
passed back into `tick` has every error marker filtered out of its
history, so the recursion never goes two levels deep; fuel 2 therefore
reproduces the source exactly (see `findSerializedErrorState_filtered`). -/
def tick : Nat → FSM D → DecisionTask → TickResult D
  | 0, _, _ => .panic "tick: recursion fuel exhausted"
  | fuel + 1, f, task0 =>
    let task := f.beforeTask task0
    let lastEvents := findLastEvents task.previousStartedEventId task.events
    match findSerializedState f task.events with
    | (_, some e) => if f.allowPanics then .panic e else .error none e
    | (none, none) => .panic "runtime error: invalid memory address or nil pointer dereference"
    | (some serializedState, none) =>
      match findSerializedEventCorrelator f task.events with
      | (_, some e) => if f.allowPanics then .panic e else .error none e
      | (eventCorrelator, none) =>
        let ctx : FSMContext D :=
          { workflowTypeName := task.workflowTypeName
            workflowId := task.workflowId
            runId := task.runId
            eventCorrelator := eventCorrelator
            state := ""
            stateData := none
            stateVersion := 0 }
        match f.deserializeData serializedState.stateData with
        | (_, some e) => if f.allowPanics then .panic e else .error none e
        | (data, none) =>
          let outcome : Outcome D := { state := serializedState.stateName, data := data, decisions := [] }
          let ctx := { ctx with stateVersion := serializedState.stateVersion }
          let outcome := f.beforeDecision task ctx outcome
          match (findSerializedErrorState f task.events).fst with
          | some errorState =>
            match errorStateTickAux (tick fuel) f task errorState ctx outcome.data with
            | .error pmsg => .panic pmsg
            | .ok (some recovery, _) => tickFinish f task lastEvents ctx recovery
            | .ok (none, _) =>
              let errorState := { errorState with latestUnprocessedEventId := task.startedEventId }
              match recordStateMarkers f ctx outcome ctx.eventCorrelator (some errorState) with
              | (_, ss, some e) => .error (some ss) e
              | (final, ss, none) => .ok ctx final ss
          | none => tickFinish f task lastEvents ctx outcome

/-- `FSM.Tick`. -/
def Tick (f : FSM D) (task : DecisionTask) : TickResult D := tick 2 f task

/-- `FSMContext.ContinueWorkflowDecision` (src/fsm/fsm_models.go lines
289-301): builds a `ContinueAsNewWorkflowExecution` decision whose input
is the serialized `SerializedState` carrying the context's current
`stateVersion` (no increment).  `FSMContext.Serialize` panics on
serialization errors, modelled as `.error`. -/
def continueWorkflowDecision (f : FSM D) (ctx : FSMContext D) (continuedState : String) (data : D) :
    Except String Decision :=
  match f.serializeData data with
  | (_, some e) => .error e
  | (stateData, none) =>
    let ss : SerializedState :=
      { stateVersion := ctx.stateVersion
        stateName := continuedState
        stateData := stateData
        workflowId := "" }
    match f.serializeUserState ss with
    | (_, some e) => .error e
    | (input, none) =>
      .ok { decisionType := "ContinueAsNewWorkflowExecution"
            continueAsNewWorkflowExecutionDecisionAttributes := some ({ input := some input }) }

/-- The shadow task built by `ErrorStateTick` has no error markers left in
its history, so the recursive `tick` never reaches its own error-state
branch: fuel 2 suffices for `Tick`. -/
theorem findSerializedErrorState_filtered (f : FSM D) (events : List HistoryEvent) :
    (findSerializedErrorState f (events.filter (fun h => !(isErrorMarker h)))).fst = none := by
  induction events with
  | nil => rfl
  | cons e rest ih =>
    by_cases h : isErrorMarker e
    · simp [List.filter, h, ih]
    · simp [List.filter, h, findSerializedErrorState, ih]


/-! ### ShutdownManager (src/unnamed/part_000) -/

structure RegisteredPoller where
  name : String
  deriving Repr, DecidableEq

/-- `ShutdownManager`: the lock-guarded registry `map[string]*registeredPoller`. -/
structure ShutdownManager where
  registeredPollers : SMap RegisteredPoller
  deriving Repr, DecidableEq

/-- A channel operation performed by `StopPollers`, identified by the
owning poller's name (each registered poller owns one stop and one ack
channel). -/
inductive MgrAction where
  | sendStop (name : String)
  | awaitAck (name : String)
  deriving Repr, DecidableEq

/-- `Register` (the caller-provided channels are represented by the
poller's name). -/
def register (m : ShutdownManager) (name : String) : ShutdownManager :=
  { registeredPollers := smapPut m.registeredPollers name ({ name := name }) }

def deregister (m : ShutdownManager) (name : String) : ShutdownManager :=
  { registeredPollers := smapDel m.registeredPollers name }

/-- `StopPollers`: sends to every registered stop channel, then receives
from every registered ack channel, then clears the registry.  The source
ranges over the Go map twice; Go map iteration order is unspecified, so
each loop is parametrized here by an enumeration of the registered
pollers, and theorems quantify over permutations of the registry. -/
def stopPollers (m : ShutdownManager) (iter1 iter2 : List RegisteredPoller) :
    List MgrAction × ShutdownManager :=
  (iter1.map (fun r => MgrAction.sendStop r.name) ++ iter2.map (fun r => MgrAction.awaitAck r.name),
   { m with registeredPollers := [] })

def sendStopName : MgrAction → Option String
  | .sendStop n => some n
  | _ => none

def awaitAckName : MgrAction → Option String
  | .awaitAck n => some n
  | _ => none

/-! ### Activity worker failure path (src/unnamed/part_005) -/

/-- The `ActivityWorker` configuration fields used by `fail`/`backoff`:
`h.Serializer.Deserialize` into an `EventCorrelator` is the one serializer
call on this path. -/
structure ActivityWorker where
  backoffOnFailure : Bool
  maxBackoffSeconds : Int
  deserializeCorrelator : DeserFn EventCorrelator

/-- `backoff`: exponent `attempts - 1` capped at 30 ("int wraps at 31"),
then `int(math.Pow(2, exp))` capped at `MaxBackoffSeconds`.  For a
negative exponent `math.Pow` yields a fraction below 1 whose `int`
conversion truncates to 0. -/
def ActivityWorker.backoff (h : ActivityWorker) (attempts : Int) : Int :=
  let e0 := attempts - 1
  let e1 := if e0 > 30 then 30 else e0
  let b := if e1 < 0 then 0 else (2 : Int) ^ e1.toNat
  if b > h.maxBackoffSeconds then h.maxBackoffSeconds else b

/-- Observable effects of the worker's `fail` path. -/
inductive WorkerAction where
  | sleep (seconds : Int)
  | respondActivityTaskFailed (reason : String) (details : String)
  deriving Repr, DecidableEq

/-- The backoff scan in `fail`: find the first `FSM.Correlator` marker in
the (reverse-ordered) history, decode it, and sleep for the backoff of the
recorded attempt count; on a decode error, or if no marker is found, no
sleep happens (the loop breaks after the first correlator marker either
way). -/
def backoffSleep (h : ActivityWorker) (activityId : String) : List HistoryEvent → List WorkerAction
  | [] => []
  | e :: rest =>
    if eventTypeOf e == eventTypeMarkerRecorded && markerNameOf e == CorrelatorMarker then
      match h.deserializeCorrelator (markerDetailsOf e) with
      | (correlator, none) =>
        let attempts := (oGet correlator.activityAttempts activityId).getD 0
        [.sleep (h.backoff attempts)]
      | (_, some _) => []
    else backoffSleep h activityId rest

/-- `fail`: with `BackoffOnFailure` the workflow history is fetched
(`none` models a fetch error) and the backoff sleep happens before
`RespondActivityTaskFailed` (whose reason and details are both the error
text). -/
def failActions (h : ActivityWorker) (history : Option (List HistoryEvent))
    (activityId : String) (errMsg : String) : List WorkerAction :=
  let pre :=
    if h.backoffOnFailure then
      match history with
      | some events => backoffSleep h activityId events
      | none => []
    else []
  pre ++ [.respondActivityTaskFailed errMsg errMsg]


/-! ## Helper lemmas -/

theorem smapGet_smapDel_self {α : Type} (m : SMap α) (k : String) :
    smapGet (smapDel m k) k = none := by
  induction m with
  | nil => rfl
  | cons p rest ih =>
    obtain ⟨k', v⟩ := p
    by_cases h : k' = k
    · simpa [smapDel, h] using ih
    · simp [smapDel, smapGet, h, ih]

theorem smapGet_smapPut_self {α : Type} (m : SMap α) (k : String) (v : α) :
    smapGet (smapPut m k v) k = some v := by
  induction m with
  | nil => simp [smapPut, smapGet]
  | cons p rest ih =>
    obtain ⟨k', v'⟩ := p
    by_cases h : k' = k
    · simp [smapPut, smapGet, h]
    · simp [smapPut, smapGet, h, ih]

theorem smapGet_smapPut_ne {α : Type} (m : SMap α) (k k' : String) (v : α) (h : k ≠ k') :
    smapGet (smapPut m k v) k' = smapGet m k' := by
  induction m with
  | nil => simp [smapPut, smapGet, h]
  | cons p rest ih =>
    obtain ⟨k0, v0⟩ := p
    by_cases h0 : k0 = k
    · simp [smapPut, smapGet, h0, h]
    · simp [smapPut, smapGet, h0, ih]

theorem checkInit_checkInit (a : EventCorrelator) : a.checkInit.checkInit = a.checkInit := by
  simp [EventCorrelator.checkInit]

/-! ## Claim C10 -/

/-- C10: for every history event whose `EventType` is nil, `Track`
terminates without panicking and only performs the lazy map
initialization of `checkInit`: every map is left with exactly its previous
entries (nil maps becoming empty maps) and `toForget` is untouched. -/
theorem track_nil_event_type_is_checkInit (a : EventCorrelator) (h : HistoryEvent)
    (hh : h.eventType = none) :
    a.track h = a.checkInit
    ∧ (∀ k, oGet a.checkInit.activities k = oGet a.activities k)
    ∧ (∀ k, oGet a.checkInit.activityAttempts k = oGet a.activityAttempts k)
    ∧ (∀ k, oGet a.checkInit.signals k = oGet a.signals k)
    ∧ (∀ k, oGet a.checkInit.signalAttempts k = oGet a.signalAttempts k)
    ∧ (∀ k, oGet a.checkInit.timers k = oGet a.timers k)
    ∧ (∀ k, oGet a.checkInit.cancellations k = oGet a.cancellations k)
    ∧ (∀ k, oGet a.checkInit.cancelationAttempts k = oGet a.cancelationAttempts k)
    ∧ (∀ k, oGet a.checkInit.children k = oGet a.children k)
    ∧ (∀ k, oGet a.checkInit.childrenAttempts k = oGet a.childrenAttempts k)
    ∧ a.checkInit.toForget = a.toForget := by
  refine ⟨?_, fun k => rfl, fun k => rfl, fun k => rfl, fun k => rfl, fun k => rfl,
    fun k => rfl, fun k => rfl, fun k => rfl, fun k => rfl, rfl⟩
  show (a.removeCorrelation h).correlate h = a.checkInit
  have h1 : a.removeCorrelation h = a.checkInit := by
    simp [EventCorrelator.removeCorrelation, hh]
  rw [h1]
  simp [EventCorrelator.correlate, hh, EventCorrelator.nilSafeEq, checkInit_checkInit]

def c10CorrelatorW : EventCorrelator :=
  { activities := some [("3", { activityId := "A", activityType := none })]
    activityAttempts := some [("A", 2)] }

def c10EventW : HistoryEvent := { eventId := some 9 }

/-- Witness for C10 at a concrete correlator and a concrete event with nil
`EventType`. -/
theorem track_nil_event_type_is_checkInit_witness :
    c10EventW.eventType = none ∧
    (c10CorrelatorW.track c10EventW = c10CorrelatorW.checkInit
      ∧ (∀ k, oGet c10CorrelatorW.checkInit.activities k = oGet c10CorrelatorW.activities k)
      ∧ (∀ k, oGet c10CorrelatorW.checkInit.activityAttempts k = oGet c10CorrelatorW.activityAttempts k)
      ∧ (∀ k, oGet c10CorrelatorW.checkInit.signals k = oGet c10CorrelatorW.signals k)
      ∧ (∀ k, oGet c10CorrelatorW.checkInit.signalAttempts k = oGet c10CorrelatorW.signalAttempts k)
      ∧ (∀ k, oGet c10CorrelatorW.checkInit.timers k = oGet c10CorrelatorW.timers k)
      ∧ (∀ k, oGet c10CorrelatorW.checkInit.cancellations k = oGet c10CorrelatorW.cancellations k)
      ∧ (∀ k, oGet c10CorrelatorW.checkInit.cancelationAttempts k = oGet c10CorrelatorW.cancelationAttempts k)
      ∧ (∀ k, oGet c10CorrelatorW.checkInit.children k = oGet c10CorrelatorW.children k)
      ∧ (∀ k, oGet c10CorrelatorW.checkInit.childrenAttempts k = oGet c10CorrelatorW.childrenAttempts k)
      ∧ c10CorrelatorW.checkInit.toForget = c10CorrelatorW.toForget) :=
  ⟨rfl, track_nil_event_type_is_checkInit c10CorrelatorW c10EventW rfl⟩


/-! ## Claim C7 -/

/-- C7 (amended): the four `AttemptsFor*` functions are pure lookups whose
only mutation is the lazy map initialization of `checkInit`, returning the
stored counter (0 when none exists); `AttemptsForCancellation` and
`AttemptsForChild` return 0 for nil info or an empty key, but
`AttemptsForActivity` and `AttemptsForSignal` dereference a nil info and
panic instead of returning 0. -/
theorem attemptsFor_lookup_behavior (a : EventCorrelator) :
    (∀ i : ActivityInfo, a.attemptsForActivity (some i)
      = (a.checkInit, .ok ((oGet a.activityAttempts i.activityId).getD 0)))
    ∧ a.attemptsForActivity none
      = (a.checkInit, .error "runtime error: invalid memory address or nil pointer dereference")
    ∧ (∀ i : SignalInfo, a.attemptsForSignal (some i)
      = (a.checkInit, .ok ((oGet a.signalAttempts (EventCorrelator.signalIdFromInfo i)).getD 0)))
    ∧ a.attemptsForSignal none
      = (a.checkInit, .error "runtime error: invalid memory address or nil pointer dereference")
    ∧ (∀ i : CancellationInfo, a.attemptsForCancellation (some i)
      = (a.checkInit, .ok (if i.workflowId = "" then 0
          else (oGet a.cancelationAttempts i.workflowId).getD 0)))
    ∧ a.attemptsForCancellation none = (a.checkInit, .ok 0)
    ∧ (∀ i : ChildInfo, a.attemptsForChild (some i)
      = (a.checkInit, .ok (if i.workflowId = "" then 0
          else (oGet a.childrenAttempts i.workflowId).getD 0)))
    ∧ a.attemptsForChild none = (a.checkInit, .ok 0) := by
  refine ⟨fun i => rfl, rfl, fun i => rfl, rfl, fun i => ?_, rfl, fun i => ?_, rfl⟩
  · by_cases h : i.workflowId = ""
    · simp [EventCorrelator.attemptsForCancellation, h]
    · simp [EventCorrelator.attemptsForCancellation, h, EventCorrelator.checkInit, oGet]
  · by_cases h : i.workflowId = ""
    · simp [EventCorrelator.attemptsForChild, h]
    · simp [EventCorrelator.attemptsForChild, h, EventCorrelator.checkInit, oGet]

/-- Counterexample to C7 as stated: on a nil info, `AttemptsForActivity`
and `AttemptsForSignal` do not return 0; they dereference the nil pointer
(a Go panic), even on a zero-value correlator. -/
theorem attemptsFor_nil_panics :
    (EventCorrelator.attemptsForActivity {} none).snd
      = .error "runtime error: invalid memory address or nil pointer dereference"
    ∧ (EventCorrelator.attemptsForSignal {} none).snd
      = .error "runtime error: invalid memory address or nil pointer dereference"
    ∧ ∀ n : Int, (EventCorrelator.attemptsForActivity {} none).snd ≠ .ok n :=
  ⟨rfl, rfl, fun n h => by simp [EventCorrelator.attemptsForActivity] at h⟩


/-! ## Claim C6 -/

/-- After `Track` of an `ActivityTaskScheduled` event, the correlator has
the activity recorded under the scheduled event id and everything else
(in particular `toForget` and the attempt counters) untouched. -/
theorem track_scheduled_eq (a : EventCorrelator) (k : Int) (aid : String)
    (atype : Option ActivityType) (s : HistoryEvent)
    (hsType : s.eventType = some eventTypeActivityTaskScheduled)
    (hsId : s.eventId = some k)
    (hsAttrs : s.activityTaskScheduledEventAttributes =
      some ({ activityId := some aid, activityType := atype })) :
    a.track s = { a.checkInit with
      activities := oPut a.checkInit.activities (toString k)
        ({ activityId := aid, activityType := atype }) } := by
  have h1 : a.removeCorrelation s = a.checkInit := by
    simp [EventCorrelator.removeCorrelation, hsType, eventTypeActivityTaskScheduled]
  show (a.removeCorrelation s).correlate s = _
  rw [h1]
  simp [EventCorrelator.correlate, hsType, hsId, hsAttrs, EventCorrelator.nilSafeEq,
    EventCorrelator.key, checkInit_checkInit,
    eventTypeActivityTaskScheduled, eventTypeSignalExternalWorkflowExecutionInitiated,
    eventTypeRequestCancelExternalWorkflowExecutionInitiated, eventTypeTimerStarted,
    eventTypeStartChildWorkflowExecutionInitiated]

/-- C6: `Track(scheduled)`, then `Track` of a matching terminal event.  A
completed terminal leaves `Activities` without the entry for the scheduled
event id and the activity's attempt counter at 0; a failed terminal leaves
`Activities` without the entry and the attempt counter at 1 (the
increment in `removeCorrelation` happens while the outstanding record is
still present, so the activity id is recovered from it). -/
theorem track_scheduled_then_terminal (a : EventCorrelator) (k : Int) (aid : String)
    (atype : Option ActivityType) (s tc tf : HistoryEvent)
    (hsType : s.eventType = some eventTypeActivityTaskScheduled)
    (hsId : s.eventId = some k)
    (hsAttrs : s.activityTaskScheduledEventAttributes =
      some ({ activityId := some aid, activityType := atype }))
    (htcType : tc.eventType = some eventTypeActivityTaskCompleted)
    (htcAttrs : tc.activityTaskCompletedEventAttributes = some ({ scheduledEventId := some k }))
    (htfType : tf.eventType = some eventTypeActivityTaskFailed)
    (htfAttrs : tf.activityTaskFailedEventAttributes = some ({ scheduledEventId := some k }))
    (hforget : a.toForget = none)
    (hnoatt : oGet a.activityAttempts aid = none)
    (haid : aid ≠ "") :
    (oGet ((a.track s).track tc).activities (EventCorrelator.key (some k)) = none
      ∧ (oGet ((a.track s).track tc).activityAttempts aid).getD 0 = 0)
    ∧ (oGet ((a.track s).track tf).activities (EventCorrelator.key (some k)) = none
      ∧ (oGet ((a.track s).track tf).activityAttempts aid).getD 0 = 1) := by
  rw [track_scheduled_eq a k aid atype s hsType hsId hsAttrs]
  set a1 : EventCorrelator := { a.checkInit with
      activities := oPut a.checkInit.activities (toString k)
        ({ activityId := aid, activityType := atype }) } with ha1
  have hget : oGet a1.activities (EventCorrelator.getId a1 tc) =
      some ({ activityId := aid, activityType := atype }) := by
    simp [ha1, EventCorrelator.getId, htcType, htcAttrs, eventTypeActivityTaskCompleted,
      EventCorrelator.key, oGet, oPut, smapGet_smapPut_self]
  have ha1c : a1.checkInit = a1 := by
    simp [ha1, EventCorrelator.checkInit, oPut]
  have hforget0 : a.checkInit.toForget = none := hforget
  have hforget1 : a1.toForget = none := by
    simp [ha1, EventCorrelator.checkInit, hforget]
  have hatt1 : oGet a1.activityAttempts aid = none := by
    simpa [ha1, EventCorrelator.checkInit, oGet] using hnoatt
  have hsafec : a1.safeActivityId tc = aid := by
    simp [EventCorrelator.safeActivityId, hget]
  constructor
  · -- completed terminal: attempts deleted, then the outstanding record deleted
    have hrc : a1.removeCorrelation tc = { a1 with
        activityAttempts := oDel a1.activityAttempts aid
        activities := oDel a1.activities (toString k) } := by
      simp [EventCorrelator.removeCorrelation, htcType, htcAttrs, ha1c, hsafec,
        EventCorrelator.key, eventTypeActivityTaskCompleted]
    have hcc : (a1.removeCorrelation tc).correlate tc = a1.removeCorrelation tc := by
      rw [EventCorrelator.correlate]
      simp [htcType, EventCorrelator.nilSafeEq,
        eventTypeActivityTaskScheduled, eventTypeSignalExternalWorkflowExecutionInitiated,
        eventTypeRequestCancelExternalWorkflowExecutionInitiated, eventTypeTimerStarted,
        eventTypeStartChildWorkflowExecutionInitiated, eventTypeActivityTaskCompleted,
        hrc, ha1c, EventCorrelator.checkInit, oDel]
    show oGet ((a1.removeCorrelation tc).correlate tc).activities (EventCorrelator.key (some k)) = none
      ∧ (oGet ((a1.removeCorrelation tc).correlate tc).activityAttempts aid).getD 0 = 0
    rw [hcc, hrc]
    constructor
    · simp [oGet, oDel, EventCorrelator.key, smapGet_smapDel_self]
    · simp [oGet, oDel, smapGet_smapDel_self]
  · -- failed terminal: attempts incremented (to 1), then the record deleted
    have hgetf : oGet a1.activities (EventCorrelator.getId a1 tf) =
        some ({ activityId := aid, activityType := atype }) := by
      simp [ha1, EventCorrelator.getId, htfType, htfAttrs, eventTypeActivityTaskFailed,
        EventCorrelator.key, oGet, oPut, smapGet_smapPut_self]
    have hsafef : a1.safeActivityId tf = aid := by
      simp [EventCorrelator.safeActivityId, hgetf]
    have hinc : a1.incrementActivityAttempts tf = { a1 with
        activityAttempts := oPut a1.activityAttempts aid 1 } := by
      rw [EventCorrelator.incrementActivityAttempts]
      simp [hsafef, EventCorrelator.isToForget, hforget0, hforget1, haid, hatt1]
    have hrf : a1.removeCorrelation tf = { a1 with
        activityAttempts := oPut a1.activityAttempts aid 1
        activities := oDel a1.activities (toString k) } := by
      simp [EventCorrelator.removeCorrelation, htfType, htfAttrs, ha1c, hinc,
        EventCorrelator.key, eventTypeActivityTaskFailed]
    have hcf : (a1.removeCorrelation tf).correlate tf = a1.removeCorrelation tf := by
      rw [EventCorrelator.correlate]
      simp [htfType, EventCorrelator.nilSafeEq,
        eventTypeActivityTaskScheduled, eventTypeSignalExternalWorkflowExecutionInitiated,
        eventTypeRequestCancelExternalWorkflowExecutionInitiated, eventTypeTimerStarted,
        eventTypeStartChildWorkflowExecutionInitiated, eventTypeActivityTaskFailed,
        hrf, ha1c, EventCorrelator.checkInit, oDel, oPut]
    show oGet ((a1.removeCorrelation tf).correlate tf).activities (EventCorrelator.key (some k)) = none
      ∧ (oGet ((a1.removeCorrelation tf).correlate tf).activityAttempts aid).getD 0 = 1
    rw [hcf, hrf]
    constructor
    · simp [oGet, oDel, EventCorrelator.key, smapGet_smapDel_self]
    · simp [oGet, oPut, smapGet_smapPut_self]


def c6SchedW : HistoryEvent :=
  { eventId := some 6, eventType := some "ActivityTaskScheduled"
    activityTaskScheduledEventAttributes := some ({ activityId := some "A1", activityType := none }) }

def c6CompW : HistoryEvent :=
  { eventId := some 7, eventType := some "ActivityTaskCompleted"
    activityTaskCompletedEventAttributes := some ({ scheduledEventId := some 6 }) }

def c6FailW : HistoryEvent :=
  { eventId := some 7, eventType := some "ActivityTaskFailed"
    activityTaskFailedEventAttributes := some ({ scheduledEventId := some 6 }) }

/-- Witness for C6 on the zero-value correlator with concrete events. -/
theorem track_scheduled_then_terminal_witness :
    (({} : EventCorrelator).toForget = none
      ∧ oGet ({} : EventCorrelator).activityAttempts "A1" = none
      ∧ ("A1" : String) ≠ "")
    ∧ ((oGet ((EventCorrelator.track {} c6SchedW).track c6CompW).activities
          (EventCorrelator.key (some 6)) = none
        ∧ (oGet ((EventCorrelator.track {} c6SchedW).track c6CompW).activityAttempts "A1").getD 0 = 0)
      ∧ (oGet ((EventCorrelator.track {} c6SchedW).track c6FailW).activities
          (EventCorrelator.key (some 6)) = none
        ∧ (oGet ((EventCorrelator.track {} c6SchedW).track c6FailW).activityAttempts "A1").getD 0 = 1)) :=
  ⟨⟨rfl, rfl, by decide⟩,
    track_scheduled_then_terminal {} 6 "A1" none c6SchedW c6CompW c6FailW
      rfl rfl rfl rfl rfl rfl rfl rfl rfl (by decide)⟩


/-! ## Claim C3 -/

/-- The event kinds `findLastEvents` skips: decision-task bookkeeping
events and the `FSM.State`/`FSM.Correlator` markers.  Error markers are
not skipped. -/
def tickSkippedEvent (e : HistoryEvent) : Bool :=
  (eventTypeOf e == eventTypeDecisionTaskCompleted
    || eventTypeOf e == eventTypeDecisionTaskScheduled
    || eventTypeOf e == eventTypeDecisionTaskStarted)
  || (eventTypeOf e == eventTypeMarkerRecorded && (isStateMarker e || isCorrelatorMarker e))

theorem findLastEvents_filter (prev : Int) :
    ∀ events : List HistoryEvent,
      events.Pairwise (fun x y => eventIdOf y < eventIdOf x) →
      ((∃ e ∈ events, eventIdOf e < prev) → ∃ e ∈ events, eventIdOf e = prev) →
      findLastEvents prev events
        = events.filter (fun e => decide (prev < eventIdOf e) && !(tickSkippedEvent e))
  | [], _, _ => rfl
  | e :: rest, hsorted, hcut => by
    rw [List.pairwise_cons] at hsorted
    obtain ⟨hhead, hrest⟩ := hsorted
    by_cases heq : eventIdOf e = prev
    · have hL : findLastEvents prev (e :: rest) = [] := by
        simp [findLastEvents, heq]
      have hR : List.filter (fun x => decide (prev < eventIdOf x) && !(tickSkippedEvent x))
          (e :: rest) = [] := by
        rw [List.filter_eq_nil_iff]
        intro x hx
        rcases List.mem_cons.mp hx with h1 | h1
        · simp [h1, heq]
        · have hxe := hhead x h1
          rw [heq] at hxe
          simp only [Bool.and_eq_true, decide_eq_true_eq, not_and]
          intro hlt
          omega
      rw [hL, hR]
    · have hgt : prev < eventIdOf e := by
        rcases lt_trichotomy (eventIdOf e) prev with hlt | heq2 | hgt
        · exfalso
          obtain ⟨e', he', heqid⟩ := hcut ⟨e, List.mem_cons_self e rest, hlt⟩
          rcases List.mem_cons.mp he' with h1 | h1
          · exact heq (h1 ▸ heqid)
          · have := hhead e' h1
            omega
        · exact absurd heq2 heq
        · exact hgt
      have hcut' : (∃ x ∈ rest, eventIdOf x < prev) → ∃ x ∈ rest, eventIdOf x = prev := by
        rintro ⟨x, hx, hxlt⟩
        obtain ⟨e', he', heqid⟩ := hcut ⟨x, List.mem_cons_of_mem e hx, hxlt⟩
        rcases List.mem_cons.mp he' with h1 | h1
        · exact absurd (h1 ▸ heqid) heq
        · exact ⟨e', h1, heqid⟩
      have ihr := findLastEvents_filter prev rest hrest hcut'
      have hne : (eventIdOf e == prev) = false := by simp [heq]
      by_cases hd1 : (eventTypeOf e == eventTypeDecisionTaskCompleted
          || eventTypeOf e == eventTypeDecisionTaskScheduled
          || eventTypeOf e == eventTypeDecisionTaskStarted) = true
      · have hskip : tickSkippedEvent e = true := by
          simp only [tickSkippedEvent, hd1, Bool.true_or]
        simp [findLastEvents, hne, hd1, List.filter_cons, hskip, ihr]
      · have hd1' : (eventTypeOf e == eventTypeDecisionTaskCompleted
            || eventTypeOf e == eventTypeDecisionTaskScheduled
            || eventTypeOf e == eventTypeDecisionTaskStarted) = false := by
          simpa using hd1
        by_cases hmr : (eventTypeOf e == eventTypeMarkerRecorded) = true
        · by_cases hst : isStateMarker e = true
          · have hskip : tickSkippedEvent e = true := by
              simp [tickSkippedEvent, hmr, hst]
            simp [findLastEvents, hne, hd1', hmr, hst, List.filter_cons, hskip, ihr]
          · have hst' : isStateMarker e = false := by simpa using hst
            by_cases hcm : isCorrelatorMarker e = true
            · have hskip : tickSkippedEvent e = true := by
                simp [tickSkippedEvent, hmr, hcm]
              simp [findLastEvents, hne, hd1', hmr, hst', hcm, List.filter_cons, hskip, ihr]
            · have hcm' : isCorrelatorMarker e = false := by simpa using hcm
              have hskip : tickSkippedEvent e = false := by
                simp [tickSkippedEvent, hd1', hmr, hst', hcm']
              simp [findLastEvents, hne, hd1', hmr, hst', hcm', List.filter_cons, hskip, hgt, ihr]
        · have hmr' : (eventTypeOf e == eventTypeMarkerRecorded) = false := by simpa using hmr
          have hskip : tickSkippedEvent e = false := by
            simp [tickSkippedEvent, hd1', hmr']
          simp [findLastEvents, hne, hd1', hmr', List.filter_cons, hskip, hgt, ihr]

/-- C3 (amended): on a newest-first history with strictly decreasing
event ids whose window is well-formed (any event older than
`previousStartedEventId` implies the event with exactly that id is
present), `findLastEvents` selects exactly the events with
`eventId > previousStartedEventId` that are not `DecisionTaskScheduled`/
`DecisionTaskStarted`/`DecisionTaskCompleted` and not `FSM.State`/
`FSM.Correlator` markers — `FSM.Error` markers are NOT excluded and are
visited by the fold — and the fold (which consumes the reversed list)
visits them in strictly ascending event-id, i.e. chronological, order. -/
theorem findLastEvents_selects_unprocessed (prev : Int) (events : List HistoryEvent)
    (hsorted : events.Pairwise (fun x y => eventIdOf y < eventIdOf x))
    (hcut : (∃ e ∈ events, eventIdOf e < prev) → ∃ e ∈ events, eventIdOf e = prev) :
    findLastEvents prev events
      = events.filter (fun e => decide (prev < eventIdOf e) && !(tickSkippedEvent e))
    ∧ (findLastEvents prev events).reverse.Pairwise (fun x y => eventIdOf x < eventIdOf y) := by
  have hmain := findLastEvents_filter prev events hsorted hcut
  refine ⟨hmain, ?_⟩
  rw [hmain, List.pairwise_reverse]
  exact hsorted.filter _

def c3ErrorMarkerW : HistoryEvent :=
  { eventId := some 2, eventType := some "MarkerRecorded"
    markerRecordedEventAttributes := some ({ markerName := some "FSM.Error", details := some "e" }) }

def c3StartedW : HistoryEvent := { eventId := some 1, eventType := some "DecisionTaskStarted" }

/-- Counterexample to C3 as stated: `findLastEvents` does not exclude
`FSM.Error` markers.  With `previousStartedEventId = 1` and a history
containing an `FSM.Error` marker at event id 2, the marker is selected
for the fold, while the claim says the set of processed events excludes
it (here the claimed set would be empty). -/
theorem findLastEvents_keeps_error_marker :
    findLastEvents 1 [c3ErrorMarkerW, c3StartedW] = [c3ErrorMarkerW]
    ∧ isErrorMarker c3ErrorMarkerW = true
    ∧ findLastEvents 1 [c3ErrorMarkerW, c3StartedW] ≠ [] := by
  refine ⟨rfl, rfl, ?_⟩
  decide

def c3TimerFiredW : HistoryEvent := { eventId := some 3, eventType := some "TimerFired" }

def c3StateMarkerW : HistoryEvent :=
  { eventId := some 2, eventType := some "MarkerRecorded"
    markerRecordedEventAttributes := some ({ markerName := some "FSM.State", details := some "s" }) }

/-- Witness for the amended C3 at a concrete sorted history. -/
theorem findLastEvents_selects_unprocessed_witness :
    ([c3TimerFiredW, c3StateMarkerW, c3StartedW].Pairwise (fun x y => eventIdOf y < eventIdOf x)
      ∧ ((∃ e ∈ [c3TimerFiredW, c3StateMarkerW, c3StartedW], eventIdOf e < 1)
          → ∃ e ∈ [c3TimerFiredW, c3StateMarkerW, c3StartedW], eventIdOf e = 1))
    ∧ (findLastEvents 1 [c3TimerFiredW, c3StateMarkerW, c3StartedW]
        = [c3TimerFiredW, c3StateMarkerW, c3StartedW].filter
            (fun e => decide ((1:Int) < eventIdOf e) && !(tickSkippedEvent e))
      ∧ (findLastEvents 1 [c3TimerFiredW, c3StateMarkerW, c3StartedW]).reverse.Pairwise
          (fun x y => eventIdOf x < eventIdOf y)) := by
  have h1 : [c3TimerFiredW, c3StateMarkerW, c3StartedW].Pairwise
      (fun x y => eventIdOf y < eventIdOf x) := by
    decide
  have h2 : (∃ e ∈ [c3TimerFiredW, c3StateMarkerW, c3StartedW], eventIdOf e < 1)
      → ∃ e ∈ [c3TimerFiredW, c3StateMarkerW, c3StartedW], eventIdOf e = 1 := by
    intro _
    exact ⟨c3StartedW, by simp, rfl⟩
  exact ⟨⟨h1, h2⟩, findLastEvents_selects_unprocessed 1 _ h1 h2⟩


/-! ## Claim C8 -/

theorem backoffSleep_skip (w : ActivityWorker) (aid : String) :
    ∀ (pre rest : List HistoryEvent),
      (∀ x ∈ pre, (eventTypeOf x == eventTypeMarkerRecorded
        && markerNameOf x == CorrelatorMarker) = false) →
      backoffSleep w aid (pre ++ rest) = backoffSleep w aid rest
  | [], rest, _ => rfl
  | x :: pre, rest, hpre => by
    have hx := hpre x (List.mem_cons_self x pre)
    have ih := backoffSleep_skip w aid pre rest (fun y hy => hpre y (List.mem_cons_of_mem x hy))
    simp only [List.cons_append, backoffSleep, hx, Bool.false_eq_true, if_false]
    exact ih

/-- C8 (amended): with `BackoffOnFailure` enabled and the most recent
(first, in the reverse-ordered history) `FSM.Correlator` marker decoding
to a correlator, the worker sleeps for `backoff(attempts)` seconds before
`RespondActivityTaskFailed`, where for `attempts ≥ 1`
`backoff(attempts) = min(2^min(attempts-1, 30), MaxBackoffSeconds)` —
the exponent is capped at 30, which the claim's formula
`min(2^(attempts-1), MaxBackoffSeconds)` omits. -/
theorem fail_backoff_sleep (w : ActivityWorker) (events pre post : List HistoryEvent)
    (e : HistoryEvent) (c : EventCorrelator) (activityId errMsg : String)
    (hb : w.backoffOnFailure = true)
    (hsplit : events = pre ++ e :: post)
    (hpre : ∀ x ∈ pre, (eventTypeOf x == eventTypeMarkerRecorded
      && markerNameOf x == CorrelatorMarker) = false)
    (hmk : (eventTypeOf e == eventTypeMarkerRecorded
      && markerNameOf e == CorrelatorMarker) = true)
    (hdes : w.deserializeCorrelator (markerDetailsOf e) = (c, none)) :
    failActions w (some events) activityId errMsg
      = [.sleep (w.backoff ((oGet c.activityAttempts activityId).getD 0)),
         .respondActivityTaskFailed errMsg errMsg]
    ∧ (∀ attempts : Int, 1 ≤ attempts →
        w.backoff attempts = min ((2:Int) ^ ((min (attempts - 1) 30).toNat)) w.maxBackoffSeconds) := by
  constructor
  · rw [hsplit]
    simp only [failActions, hb, if_true]
    rw [backoffSleep_skip w activityId pre (e :: post) hpre]
    simp [backoffSleep, hmk, hdes]
  · intro attempts hatt
    rw [ActivityWorker.backoff]
    have hmin : (if attempts - 1 > 30 then (30:Int) else attempts - 1) = min (attempts - 1) 30 := by
      rcases le_or_lt (attempts - 1) 30 with h | h
      · rw [if_neg (by omega), min_eq_left h]
      · rw [if_pos h, min_eq_right (by omega)]
    rw [hmin]
    have hpos : ¬(min (attempts - 1) 30 < 0) := by
      simp only [not_lt, le_min_iff]
      omega
    rw [if_neg hpos]
    rcases le_or_lt ((2:Int) ^ ((min (attempts - 1) 30).toNat)) w.maxBackoffSeconds with h | h
    · rw [if_neg (by omega), min_eq_left h]
    · rw [if_pos h, min_eq_right (by omega)]

def c8CorrelatorX : EventCorrelator := { activityAttempts := some [("A1", 32)] }

def c8MarkerX : HistoryEvent :=
  { eventId := some 9, eventType := some "MarkerRecorded"
    markerRecordedEventAttributes := some ({ markerName := some "FSM.Correlator", details := some "corr" }) }

def c8WorkerX : ActivityWorker :=
  { backoffOnFailure := true, maxBackoffSeconds := 2147483648
    deserializeCorrelator := fun _ => (c8CorrelatorX, none) }

/-- Counterexample to C8 as stated: with `ActivityAttempts["A1"] = 32` and
`MaxBackoffSeconds = 2^31`, the worker sleeps `2^30` seconds (exponent
capped at 30), not `min(2^(32-1), 2^31) = 2^31` as the claimed formula
requires. -/
theorem fail_backoff_sleep_cap_counterexample :
    failActions c8WorkerX (some [c8MarkerX]) "A1" "boom"
      = [.sleep 1073741824, .respondActivityTaskFailed "boom" "boom"]
    ∧ min ((2:Int) ^ (32 - 1)) c8WorkerX.maxBackoffSeconds = 2147483648
    ∧ (1073741824 : Int) ≠ 2147483648 := by
  refine ⟨rfl, by norm_num [c8WorkerX], by norm_num⟩

def c8CorrelatorW : EventCorrelator := { activityAttempts := some [("A1", 3)] }

def c8MarkerW : HistoryEvent :=
  { eventId := some 9, eventType := some "MarkerRecorded"
    markerRecordedEventAttributes := some ({ markerName := some "FSM.Correlator", details := some "corr" }) }

def c8WorkerW : ActivityWorker :=
  { backoffOnFailure := true, maxBackoffSeconds := 60
    deserializeCorrelator := fun _ => (c8CorrelatorW, none) }

/-- Witness for the amended C8 at the spec's example: attempts 3 with
`MaxBackoffSeconds = 60` sleeps `2^(3-1) = 4` seconds before responding. -/
theorem fail_backoff_sleep_witness :
    (c8WorkerW.backoffOnFailure = true
      ∧ ([c8MarkerW] : List HistoryEvent) = [] ++ c8MarkerW :: []
      ∧ (eventTypeOf c8MarkerW == eventTypeMarkerRecorded
          && markerNameOf c8MarkerW == CorrelatorMarker) = true
      ∧ c8WorkerW.deserializeCorrelator (markerDetailsOf c8MarkerW) = (c8CorrelatorW, none))
    ∧ (failActions c8WorkerW (some [c8MarkerW]) "A1" "boom"
        = [.sleep (c8WorkerW.backoff ((oGet c8CorrelatorW.activityAttempts "A1").getD 0)),
           .respondActivityTaskFailed "boom" "boom"]
      ∧ (∀ attempts : Int, 1 ≤ attempts →
          c8WorkerW.backoff attempts
            = min ((2:Int) ^ ((min (attempts - 1) 30).toNat)) c8WorkerW.maxBackoffSeconds))
    ∧ c8WorkerW.backoff ((oGet c8CorrelatorW.activityAttempts "A1").getD 0) = 4 :=
  ⟨⟨rfl, rfl, rfl, rfl⟩,
    fail_backoff_sleep c8WorkerW [c8MarkerW] [] [] c8MarkerW c8CorrelatorW "A1" "boom"
      rfl rfl (fun x hx => absurd hx (List.not_mem_nil x)) rfl rfl,
    rfl⟩

/-! ## Claim C9 -/

/-- C9 (amended): `StopPollers` first sends a stop to the channel of every
registered poller, then waits for one ack per registered poller — each in
an unspecified Go-map iteration order, not necessarily registration order
— returning only after every ack (every send precedes every ack wait in
the action trace) and clearing the registry afterwards. -/
theorem filterMap_some_comp {α β : Type} (f : α → β) (l : List α) :
    l.filterMap (fun x => some (f x)) = l.map f := by
  induction l with
  | nil => rfl
  | cons x rest ih => simp [List.filterMap_cons, ih]

theorem filterMap_const_none {α β : Type} (l : List α) :
    (l.filterMap (fun _ => (none : Option β))) = [] := by
  induction l with
  | nil => rfl
  | cons x rest ih => simp [List.filterMap_cons, ih]

theorem stopPollers_broadcast_then_ack (m : ShutdownManager) (iter1 iter2 : List RegisteredPoller)
    (h1 : iter1.Perm (m.registeredPollers.map Prod.snd))
    (h2 : iter2.Perm (m.registeredPollers.map Prod.snd)) :
    ((stopPollers m iter1 iter2).fst.filterMap sendStopName).Perm
        ((m.registeredPollers.map Prod.snd).map RegisteredPoller.name)
    ∧ ((stopPollers m iter1 iter2).fst.filterMap awaitAckName).Perm
        ((m.registeredPollers.map Prod.snd).map RegisteredPoller.name)
    ∧ (∀ (i j : Nat) (sa aa : String),
          (stopPollers m iter1 iter2).fst[i]? = some (MgrAction.sendStop sa)
        → (stopPollers m iter1 iter2).fst[j]? = some (MgrAction.awaitAck aa) → i < j)
    ∧ (stopPollers m iter1 iter2).snd.registeredPollers = [] := by
  have hsends : (stopPollers m iter1 iter2).fst.filterMap sendStopName
      = iter1.map RegisteredPoller.name := by
    simp only [stopPollers, List.filterMap_append, List.filterMap_map, Function.comp_def,
      sendStopName, awaitAckName]
    rw [filterMap_some_comp, filterMap_const_none, List.append_nil]
  have hacks : (stopPollers m iter1 iter2).fst.filterMap awaitAckName
      = iter2.map RegisteredPoller.name := by
    simp only [stopPollers, List.filterMap_append, List.filterMap_map, Function.comp_def,
      sendStopName, awaitAckName]
    rw [filterMap_some_comp, filterMap_const_none, List.nil_append]
  refine ⟨?_, ?_, ?_, rfl⟩
  · rw [hsends]; exact h1.map _
  · rw [hacks]; exact h2.map _
  · intro i j sa aa hi hj
    have hilt : i < (iter1.map (fun r => MgrAction.sendStop r.name)).length := by
      by_contra hge
      rw [stopPollers] at hi
      rw [List.getElem?_append_right (by omega)] at hi
      rw [List.getElem?_map ..] at hi
      rcases h : (iter2[i - (iter1.map (fun r => MgrAction.sendStop r.name)).length]? :
          Option RegisteredPoller) with _ | r
      · rw [h] at hi; simp at hi
      · rw [h] at hi; simp at hi
    have hjge : ¬(j < (iter1.map (fun r => MgrAction.sendStop r.name)).length) := by
      intro hlt
      rw [stopPollers] at hj
      rw [List.getElem?_append_left hlt] at hj
      rw [List.getElem?_map ..] at hj
      rcases h : (iter1[j]? : Option RegisteredPoller) with _ | r
      · rw [h] at hj; simp at hj
      · rw [h] at hj; simp at hj
    omega

def c9Mgr : ShutdownManager := register (register ({ registeredPollers := [] }) "p1") "p2"

def c9P1 : RegisteredPoller := { name := "p1" }

def c9P2 : RegisteredPoller := { name := "p2" }

/-- Counterexample to C9 as stated: the registry is a Go map, iterated in
unspecified order.  With "p1" registered before "p2", the iteration order
[p2, p1] is a legal enumeration of the registry, and then the acks are
awaited in the order p2, p1 — not the registration order p1, p2. -/
theorem stopPollers_not_registration_order :
    ([c9P2, c9P1] : List RegisteredPoller).Perm (c9Mgr.registeredPollers.map Prod.snd)
    ∧ (stopPollers c9Mgr [c9P2, c9P1] [c9P2, c9P1]).fst.filterMap awaitAckName = ["p2", "p1"]
    ∧ c9Mgr.registeredPollers.map Prod.fst = ["p1", "p2"]
    ∧ (["p2", "p1"] : List String) ≠ ["p1", "p2"] := by
  refine ⟨?_, rfl, rfl, by decide⟩
  exact List.Perm.swap c9P1 c9P2 []

/-- Witness for the amended C9 at a concrete two-poller registry. -/
theorem stopPollers_broadcast_then_ack_witness :
    (([c9P2, c9P1] : List RegisteredPoller).Perm (c9Mgr.registeredPollers.map Prod.snd)
      ∧ ([c9P1, c9P2] : List RegisteredPoller).Perm (c9Mgr.registeredPollers.map Prod.snd))
    ∧ (((stopPollers c9Mgr [c9P2, c9P1] [c9P1, c9P2]).fst.filterMap sendStopName).Perm
          ((c9Mgr.registeredPollers.map Prod.snd).map RegisteredPoller.name)
      ∧ ((stopPollers c9Mgr [c9P2, c9P1] [c9P1, c9P2]).fst.filterMap awaitAckName).Perm
          ((c9Mgr.registeredPollers.map Prod.snd).map RegisteredPoller.name)
      ∧ (∀ (i j : Nat) (sa aa : String),
            (stopPollers c9Mgr [c9P2, c9P1] [c9P1, c9P2]).fst[i]? = some (MgrAction.sendStop sa)
          → (stopPollers c9Mgr [c9P2, c9P1] [c9P1, c9P2]).fst[j]? = some (MgrAction.awaitAck aa) → i < j)
      ∧ (stopPollers c9Mgr [c9P2, c9P1] [c9P1, c9P2]).snd.registeredPollers = []) :=
  ⟨⟨List.Perm.swap c9P1 c9P2 [], List.Perm.refl _⟩,
    stopPollers_broadcast_then_ack c9Mgr [c9P2, c9P1] [c9P1, c9P2]
      (List.Perm.swap c9P1 c9P2 []) (List.Perm.refl _)⟩


/-! ## Tick structure lemmas (for claims C1, C2, C4, C5) -/

/-- The optional error-marker decision emitted by `recordStateMarkers`. -/
def errDecisions (f : FSM D) : Option SerializedErrorState → List Decision
  | some es => [recordStringMarker ErrorMarker (f.sysSerializeErrorState es).fst]
  | none => []

theorem recordStateMarkers_ok (f : FSM D) (ctx : FSMContext D) (outcome : Outcome D)
    (corr : EventCorrelator) (es? : Option SerializedErrorState) (ds : List Decision)
    (ss : SerializedState)
    (h : recordStateMarkers f ctx outcome corr es? = (ds, ss, none)) :
    ss.stateVersion = (ctx.stateVersion + 1) % U64
    ∧ ss.stateName = outcome.state
    ∧ ∃ sdet cdet,
        ds = recordStringMarker StateMarker sdet :: recordStringMarker CorrelatorMarker cdet
          :: errDecisions f es? ++ outcome.decisions := by
  rw [recordStateMarkers] at h
  split at h
  · simp at h
  · split at h
    · simp at h
    · split at h
      · -- errorState = some es
        split at h
        · simp at h
        · rename_i es sErr heqE
          rename_i x2 cm heqC errS es0
          rename_i x1 sm heqS
          simp only [Prod.mk.injEq] at h
          obtain ⟨hds, hss, -⟩ := h
          subst hds hss
          refine ⟨rfl, rfl, sm, cm, ?_⟩
          simp [errDecisions, heqE]
      · -- errorState = none
        simp only [Prod.mk.injEq] at h
        obtain ⟨hds, hss, -⟩ := h
        subst hds hss
        exact ⟨rfl, rfl, _, _, rfl⟩

theorem contextDecide_stateVersion (ctx : FSMContext D) (h : HistoryEvent) (d : D)
    (dec : Decider D) : (contextDecide ctx h d dec).snd.stateVersion = ctx.stateVersion := by
  rw [contextDecide]
  cases dec ctx h d <;> rfl

theorem foldEvents_stateVersion (f : FSM D) (task : DecisionTask) :
    ∀ (evs : List HistoryEvent) (ctx : FSMContext D) (outcome : Outcome D),
      (foldEvents f task ctx outcome evs).fst.stateVersion = ctx.stateVersion
  | [], _, _ => rfl
  | e :: rest, ctx, outcome => by
    rw [foldEvents]
    cases hs : smapGet f.states outcome.state with
    | none => rfl
    | some fsmState =>
      simp only
      rcases hd : contextDecide ({ ctx with state := outcome.state, stateData := some outcome.data })
          e outcome.data fsmState.decider with ⟨res, ctx'⟩
      have hver : ctx'.stateVersion = ctx.stateVersion := by
        have := contextDecide_stateVersion
          ({ ctx with state := outcome.state, stateData := some outcome.data }) e outcome.data
          fsmState.decider
        rw [hd] at this
        exact this
      cases res with
      | ok anOutcome =>
        rw [foldEvents_stateVersion f task rest ctx' (mergeOutcomes outcome anOutcome)]
        exact hver
      | panic msg =>
        cases hap : f.allowPanics with
        | true => simp [hap]
        | false =>
          simp only [hap, Bool.false_eq_true, if_false]
          rcases hh : ((smapGet f.errorHandlers fsmState.name).getD f.decisionErrorHandler)
              ({ ctx with state := outcome.state, stateData := some outcome.data }) e
              (f.stasherUnstash (f.stasherStash outcome.data)) outcome.data (some msg)
            with ⟨rescued, notRescued⟩
          cases rescued with
          | some r =>
            simp only
            exact foldEvents_stateVersion f task rest _ (mergeOutcomes outcome r)
          | none => rfl


theorem tickRecord_ok (f : FSM D) (ctx1 : FSMContext D) (outc : Outcome D)
    (es? : Option SerializedErrorState) (ctx' : FSMContext D) (ds : List Decision)
    (ss : SerializedState)
    (h : tickRecord f ctx1 outc es? = .ok ctx' ds ss) :
    ctx' = ctx1
    ∧ ss.stateVersion = (ctx1.stateVersion + 1) % U64
    ∧ ∃ sdet cdet,
        ds = recordStringMarker StateMarker sdet :: recordStringMarker CorrelatorMarker cdet
          :: errDecisions f es? ++ outc.decisions := by
  rw [tickRecord] at h
  split at h
  · split at h <;> simp at h
  · rename_i final ss0 heqRec
    rw [TickResult.ok.injEq] at h
    obtain ⟨h1, h2, h3⟩ := h
    subst h1 h2 h3
    obtain ⟨hver, -, sdet, cdet, hds⟩ := recordStateMarkers_ok f _ _ _ _ _ _ heqRec
    exact ⟨rfl, hver, sdet, cdet, hds⟩

theorem tickFinish_ok (f : FSM D) (task : DecisionTask) (lastEvents : List HistoryEvent)
    (ctx : FSMContext D) (outcome : Outcome D) (ctx' : FSMContext D) (ds : List Decision)
    (ss : SerializedState)
    (h : tickFinish f task lastEvents ctx outcome = .ok ctx' ds ss) :
    ss.stateVersion = (ctx.stateVersion + 1) % U64
    ∧ ∃ (outc : Outcome D) (es? : Option SerializedErrorState) (sdet cdet : String),
        ds = recordStringMarker StateMarker sdet :: recordStringMarker CorrelatorMarker cdet
          :: errDecisions f es? ++ outc.decisions := by
  rw [tickFinish] at h
  split at h
  · rename_i ctx1 outc heqFold
    obtain ⟨-, hver, sdet, cdet, hds⟩ := tickRecord_ok f _ _ _ _ _ _ h
    have hv : ctx1.stateVersion = ctx.stateVersion := by
      have hfv := foldEvents_stateVersion f task lastEvents.reverse ctx outcome
      rw [heqFold] at hfv
      exact hfv
    refine ⟨?_, _, none, sdet, cdet, hds⟩
    rw [hver]
    simp [hv]
  · rename_i ctx1 es outc heqFold
    obtain ⟨-, hver, sdet, cdet, hds⟩ := tickRecord_ok f _ _ _ _ _ _ h
    have hv : ctx1.stateVersion = ctx.stateVersion := by
      have hfv := foldEvents_stateVersion f task lastEvents.reverse ctx outcome
      rw [heqFold] at hfv
      exact hfv
    refine ⟨?_, _, some es, sdet, cdet, hds⟩
    rw [hver, hv]
  · simp at h
  · simp at h

theorem tick_ok_shape (fuel : Nat) (f : FSM D) (task : DecisionTask) (ctx' : FSMContext D)
    (ds : List Decision) (ss : SerializedState)
    (h : tick fuel f task = .ok ctx' ds ss) :
    ∃ found : SerializedState,
      findSerializedState f (f.beforeTask task).events = (some found, none)
      ∧ ss.stateVersion = (found.stateVersion + 1) % U64
      ∧ ∃ (outc : Outcome D) (es? : Option SerializedErrorState) (sdet cdet : String),
          ds = recordStringMarker StateMarker sdet :: recordStringMarker CorrelatorMarker cdet
            :: errDecisions f es? ++ outc.decisions := by
  cases fuel with
  | zero => simp [tick] at h
  | succ fuel =>
    rw [tick] at h
    split at h
    · split at h <;> simp at h
    · simp at h
    · rename_i found heqFound
      split at h
      · split at h <;> simp at h
      · rename_i corr0 heqCorr
        split at h
        · split at h <;> simp at h
        · rename_i d0 heqData
          simp only at h
          split at h
          · -- an error marker is present: recovery attempt
            rename_i es heqErr
            split at h
            · simp at h
            · -- recovered outcome: normal finish
              rename_i recovery e1 heqRecov
              have := tickFinish_ok f _ _ _ _ _ _ _ h
              exact ⟨found, heqFound, this.1, this.2⟩
            · -- recovery failed: error marker re-recorded
              rename_i e1 heqRecov
              split at h
              · simp at h
              · rename_i final ss0 heqRec
                rw [TickResult.ok.injEq] at h
                obtain ⟨-, h2, h3⟩ := h
                subst h2 h3
                obtain ⟨hver, -, sdet, cdet, hds⟩ := recordStateMarkers_ok f _ _ _ _ _ _ heqRec
                exact ⟨found, heqFound, hver, _, _, sdet, cdet, hds⟩
          · -- no error marker: normal finish
            have := tickFinish_ok f _ _ _ _ _ _ _ h
            exact ⟨found, heqFound, this.1, this.2⟩


/-! ## Claim C1 -/

/-- C1: every successful `Tick` returns a decision list that begins with a
`RecordMarker(FSM.State)` decision followed by a `RecordMarker(FSM.Correlator)`
decision; when an error state is being recorded, the `RecordMarker(FSM.Error)`
decision is third (`errDecisions` of a `some`); all outcome decisions follow
these markers. -/
theorem tick_decisions_begin_with_markers (f : FSM D) (task : DecisionTask) (ds : List Decision)
    (h : tickDecisions (Tick f task) = some ds) :
    ∃ (sdet cdet : String) (es? : Option SerializedErrorState) (outDecisions : List Decision),
      ds = recordStringMarker StateMarker sdet :: recordStringMarker CorrelatorMarker cdet
        :: errDecisions f es? ++ outDecisions := by
  rcases hres : Tick f task with ⟨ctx1, ds1, ss1⟩ | ⟨ss?, msg⟩ | msg
  · rw [hres, tickDecisions] at h
    obtain hds := Option.some.injEq .. ▸ h
    obtain ⟨found, -, -, outc, es?, sdet, cdet, hshape⟩ :=
      tick_ok_shape 2 f task ctx1 ds1 ss1 hres
    exact ⟨sdet, cdet, es?, outc.decisions, by rw [← hds, hshape]⟩
  · rw [hres] at h
    simp [tickDecisions] at h
  · rw [hres] at h
    simp [tickDecisions] at h

def unitStayDecider : Decider Unit :=
  fun _ _ _ => .ok { state := "start", data := (), decisions := [] }

/-- A concrete FSM over `Unit` data with non-failing serializers, used to
evaluate `Tick` at concrete decision tasks. -/
def unitFsmW : FSM Unit :=
  { initialStateName := "start"
    states := [("start", { name := "start", decider := unitStayDecider })]
    errorHandlers := []
    decisionErrorHandler := fun _ _ _ _ e => (none, e)
    allowPanics := false
    serializeData := fun _ => ("D", none)
    deserializeData := fun _ => ((), none)
    deserializeStartState := fun _ =>
      ({ stateVersion := 22, stateName := "start", stateData := "sd", workflowId := "" }, none)
    serializeUserState := fun _ => ("U", none)
    deserializeCorrelator := fun _ => ({}, none)
    deserializeErrorState := fun _ =>
      ({ details := "", errorEvent := {}, earliestUnprocessedEventId := 0,
         latestUnprocessedEventId := 0 }, none)
    sysSerializeState := fun _ => ("S", none)
    sysDeserializeState := fun _ =>
      ({ stateVersion := 0, stateName := "", stateData := "", workflowId := "" }, none)
    sysSerializeCorrelator := fun _ => ("C", none)
    sysSerializeErrorState := fun _ => ("E", none)
    sysSerializeTask := fun _ => ("T", none)
    sysDeserializeTask := fun _ => ({}, none)
    sysDeserActState := fun _ => { activityId := "", input := none }
    stasherStash := fun _ => "st"
    stasherUnstash := fun _ => ()
    beforeTask := id
    beforeDecision := fun _ _ o => o
    afterDecision := fun _ _ o => o }

def startEventW : HistoryEvent :=
  { eventId := some 1, eventType := some "WorkflowExecutionStarted"
    workflowExecutionStartedEventAttributes := some ({ input := some "in" }) }

def taskW : DecisionTask :=
  { workflowId := "wf", previousStartedEventId := 0, startedEventId := 1, events := [startEventW] }

/-- Witness for C1: a concrete successful first tick whose decision list is
exactly the two markers. -/
theorem tick_decisions_begin_with_markers_witness :
    tickDecisions (Tick unitFsmW taskW)
      = some [recordStringMarker StateMarker "S", recordStringMarker CorrelatorMarker "C"]
    ∧ ∃ (sdet cdet : String) (es? : Option SerializedErrorState) (outDecisions : List Decision),
        [recordStringMarker StateMarker "S", recordStringMarker CorrelatorMarker "C"]
          = recordStringMarker StateMarker sdet :: recordStringMarker CorrelatorMarker cdet
            :: errDecisions unitFsmW es? ++ outDecisions :=
  ⟨rfl, tick_decisions_begin_with_markers unitFsmW taskW _ rfl⟩


/-! ## Claim C2 -/

/-- C2 (amended): a successful `Tick` emits a `SerializedState` whose
`stateVersion` is the reconstructed state's version plus one **modulo
2^64** (the Go field is a `uint64`); whenever no wraparound occurs this is
exactly plus one and strictly greater, so `stateVersion` is strictly
monotonic across successful ticks until a wrap; and the version carries
across continue-as-new: `ContinueWorkflowDecision` serializes the
context's current `stateVersion` (no increment) into the
`ContinueAsNewWorkflowExecution` input, and reconstructing from a
`WorkflowExecutionStarted` event that carries that input (with a
round-tripping serializer) recovers the same `stateVersion`. -/
theorem tick_state_version_increments (f : FSM D) (task : DecisionTask)
    (found : SerializedState) (ctx' : FSMContext D) (ds : List Decision) (ss : SerializedState)
    (hfs : findSerializedState f (f.beforeTask task).events = (some found, none))
    (hok : Tick f task = .ok ctx' ds ss) :
    ss.stateVersion = (found.stateVersion + 1) % U64
    ∧ (found.stateVersion + 1 < U64 →
        ss.stateVersion = found.stateVersion + 1 ∧ found.stateVersion < ss.stateVersion)
    ∧ ∀ (ctx2 : FSMContext D) (st : String) (d : D) (ev : HistoryEvent) (sd inp : String),
        f.serializeData d = (sd, none) →
        f.serializeUserState ({ stateVersion := ctx2.stateVersion, stateName := st, stateData := sd, workflowId := "" }) = (inp, none) →
        f.deserializeStartState inp = (({ stateVersion := ctx2.stateVersion, stateName := st, stateData := sd, workflowId := "" } : SerializedState), none) →
        st ≠ "" →
        ev.eventType = some eventTypeWorkflowExecutionStarted →
        isStateMarker ev = false →
        ev.workflowExecutionStartedEventAttributes = some ({ input := some inp }) →
        continueWorkflowDecision f ctx2 st d
          = .ok ({ decisionType := "ContinueAsNewWorkflowExecution"
                   continueAsNewWorkflowExecutionDecisionAttributes := some ({ input := some inp }) })
        ∧ ∃ found2 : SerializedState, findSerializedState f [ev] = (some found2, none)
            ∧ found2.stateVersion = ctx2.stateVersion := by
  obtain ⟨found', hfs', hver, -⟩ := tick_ok_shape 2 f task ctx' ds ss hok
  rw [hfs] at hfs'
  obtain hfound := (Prod.mk.injEq .. ▸ hfs').1
  obtain hfound2 := Option.some.injEq .. ▸ hfound
  subst hfound2
  refine ⟨hver, ?_, ?_⟩
  · intro hlt
    have hmod : (found.stateVersion + 1) % U64 = found.stateVersion + 1 := Nat.mod_eq_of_lt hlt
    rw [hver, hmod]
    omega
  · intro ctx2 st d ev sd inp hsd hsu hround hst hev hnm hinput
    constructor
    · rw [continueWorkflowDecision, hsd]
      simp only [hsu]
    · refine ⟨{ stateVersion := ctx2.stateVersion, stateName := st, stateData := sd, workflowId := "" }, ?_, rfl⟩
      rw [findSerializedState]
      have hstep : statefulHistoryEventToSerializedState f ev
          = (some ({ stateVersion := ctx2.stateVersion, stateName := st, stateData := sd, workflowId := "" } : SerializedState), none) := by
        rw [statefulHistoryEventToSerializedState]
        have hiof : startedInputOf ev = inp := by
          rw [startedInputOf, hinput]
          rfl
        have htype : eventTypeOf ev = eventTypeWorkflowExecutionStarted := by
          rw [eventTypeOf, hev]
          rfl
        simp only [hnm, Bool.false_eq_true, if_false, htype, beq_self_eq_true, if_true, hiof, hround]
        simp [hst]
      rw [hstep]


def c2StayDecider : Decider Unit :=
  fun _ _ _ => .ok { state := "ok", data := (), decisions := [] }

def c2FsmW : FSM Unit :=
  { unitFsmW with
    initialStateName := "ok"
    states := [("ok", { name := "ok", decider := c2StayDecider })]
    deserializeStartState := fun _ =>
      ({ stateVersion := 7, stateName := "ok", stateData := "D", workflowId := "" }, none) }

def c2StartEventW : HistoryEvent :=
  { eventId := some 1, eventType := some "WorkflowExecutionStarted"
    workflowExecutionStartedEventAttributes := some ({ input := some "U" }) }

def c2TaskW : DecisionTask :=
  { workflowId := "wf", previousStartedEventId := 0, startedEventId := 1, events := [c2StartEventW] }

def c2FoundW : SerializedState :=
  { stateVersion := 7, stateName := "ok", stateData := "D", workflowId := "" }

def c2ResCorr : EventCorrelator :=
  { activities := some [], activityAttempts := some [], signals := some []
    signalAttempts := some [], timers := some [], cancellations := some []
    cancelationAttempts := some [], children := some [], childrenAttempts := some []
    deserActState := fun _ => { activityId := "", input := none }, toForget := none }

def c2ResCtx : FSMContext Unit :=
  { workflowTypeName := "", workflowId := "wf", runId := "", eventCorrelator := c2ResCorr
    state := "ok", stateData := some (), stateVersion := 7 }

def c2NewSsW : SerializedState :=
  { stateVersion := 8, stateName := "ok", stateData := "D", workflowId := "wf" }

/-- Witness for the amended C2: a concrete tick from stateVersion 7 emits
stateVersion 8, and a concrete continue-as-new round trip carries the
context's version. -/
theorem tick_state_version_increments_witness :
    (findSerializedState c2FsmW (c2FsmW.beforeTask c2TaskW).events = (some c2FoundW, none)
      ∧ Tick c2FsmW c2TaskW = .ok c2ResCtx
          [recordStringMarker StateMarker "S", recordStringMarker CorrelatorMarker "C"] c2NewSsW)
    ∧ (c2NewSsW.stateVersion = (c2FoundW.stateVersion + 1) % U64
      ∧ (c2FoundW.stateVersion + 1 < U64 →
          c2NewSsW.stateVersion = c2FoundW.stateVersion + 1
            ∧ c2FoundW.stateVersion < c2NewSsW.stateVersion)
      ∧ ∀ (ctx2 : FSMContext Unit) (st : String) (d : Unit) (ev : HistoryEvent) (sd inp : String),
          c2FsmW.serializeData d = (sd, none) →
          c2FsmW.serializeUserState ({ stateVersion := ctx2.stateVersion, stateName := st, stateData := sd, workflowId := "" }) = (inp, none) →
          c2FsmW.deserializeStartState inp = (({ stateVersion := ctx2.stateVersion, stateName := st, stateData := sd, workflowId := "" } : SerializedState), none) →
          st ≠ "" →
          ev.eventType = some eventTypeWorkflowExecutionStarted →
          isStateMarker ev = false →
          ev.workflowExecutionStartedEventAttributes = some ({ input := some inp }) →
          continueWorkflowDecision c2FsmW ctx2 st d
            = .ok ({ decisionType := "ContinueAsNewWorkflowExecution"
                     continueAsNewWorkflowExecutionDecisionAttributes := some ({ input := some inp }) })
          ∧ ∃ found2 : SerializedState, findSerializedState c2FsmW [ev] = (some found2, none)
              ∧ found2.stateVersion = ctx2.stateVersion) :=
  ⟨⟨rfl, rfl⟩,
    tick_state_version_increments c2FsmW c2TaskW c2FoundW c2ResCtx _ c2NewSsW rfl rfl⟩

def c2FsmX : FSM Unit :=
  { c2FsmW with
    deserializeStartState := fun _ =>
      ({ stateVersion := 18446744073709551615, stateName := "ok", stateData := "D", workflowId := "" }, none) }

/-- Counterexample to C2 as stated: the state version is a Go `uint64`.
When the reconstructed state's version is 2^64 - 1 (reachable, since the
start-event input is caller-supplied), the emitted version wraps to 0: it
is not "plus exactly one" as a number, and monotonicity fails. -/
theorem tick_state_version_wraps :
    tickSerializedState (Tick c2FsmX c2TaskW)
      = some ({ stateVersion := 0, stateName := "ok", stateData := "D", workflowId := "wf" })
    ∧ (0 : Nat) ≠ 18446744073709551615 + 1
    ∧ ¬(18446744073709551615 < (0 : Nat)) :=
  ⟨rfl, by decide, by decide⟩


/-! ## Claim C4 -/

theorem foldEvents_append_done (f : FSM D) (task : DecisionTask) :
    ∀ (pre suf : List HistoryEvent) (ctx : FSMContext D) (outcome : Outcome D)
      (ctx1 : FSMContext D) (o1 : Outcome D),
      foldEvents f task ctx outcome pre = (ctx1, .done o1) →
      foldEvents f task ctx outcome (pre ++ suf) = foldEvents f task ctx1 o1 suf
  | [], suf, ctx, outcome, ctx1, o1, h => by
    rw [foldEvents] at h
    rw [Prod.mk.injEq] at h
    obtain ⟨h1, h2⟩ := h
    rw [FoldResult.done.injEq] at h2
    subst h1 h2
    rfl
  | e :: pre, suf, ctx, outcome, ctx1, o1, h => by
    rw [foldEvents] at h
    rw [List.cons_append, foldEvents]
    cases hs : smapGet f.states outcome.state with
    | none =>
      rw [hs] at h
      simp at h
    | some st =>
      rw [hs] at h
      simp only at h ⊢
      rcases hd : contextDecide ({ ctx with state := outcome.state, stateData := some outcome.data })
          e outcome.data st.decider with ⟨res, ctx2⟩
      rw [hd] at h
      cases res with
      | ok anOutcome =>
        exact foldEvents_append_done f task pre suf ctx2 (mergeOutcomes outcome anOutcome) ctx1 o1 h
      | panic msg =>
        cases hap : f.allowPanics with
        | true =>
          rw [hap] at h
          simp at h
        | false =>
          rw [hap] at h
          simp only [hap, Bool.false_eq_true, if_false] at h ⊢
          rcases hh : ((smapGet f.errorHandlers st.name).getD f.decisionErrorHandler)
              ({ ctx with state := outcome.state, stateData := some outcome.data }) e
              (f.stasherUnstash (f.stasherStash outcome.data)) outcome.data (some msg)
            with ⟨rescued, notRescued⟩
          rw [hh] at h
          cases rescued with
          | some r =>
            exact foldEvents_append_done f task pre suf _ (mergeOutcomes outcome r) ctx1 o1 h
          | none => simp at h

theorem recordStateMarkers_total (f : FSM D) (ctx : FSMContext D) (outcome : Outcome D)
    (corr : EventCorrelator) (es : SerializedErrorState)
    (hssS : ∀ s, (f.sysSerializeState s).snd = none)
    (hssC : ∀ c, (f.sysSerializeCorrelator c).snd = none)
    (hssE : ∀ e, (f.sysSerializeErrorState e).snd = none) :
    ∃ (sdet cdet : String) (ss : SerializedState),
      recordStateMarkers f ctx outcome corr (some es)
        = (recordStringMarker StateMarker sdet :: recordStringMarker CorrelatorMarker cdet
            :: recordStringMarker ErrorMarker (f.sysSerializeErrorState es).fst
            :: outcome.decisions, ss, none) := by
  rcases hS : f.sysSerializeState
      { stateVersion := (ctx.stateVersion + 1) % U64
        stateName := outcome.state
        stateData := (f.serializeData outcome.data).fst
        workflowId := ctx.workflowId } with ⟨sm, se⟩
  have hse : se = none := by
    have h := hssS
      ({ stateVersion := (ctx.stateVersion + 1) % U64
         stateName := outcome.state
         stateData := (f.serializeData outcome.data).fst
         workflowId := ctx.workflowId })
    rw [hS] at h
    exact h
  subst hse
  rcases hC : f.sysSerializeCorrelator corr with ⟨cm, ce⟩
  have hce : ce = none := by
    have h := hssC corr
    rw [hC] at h
    exact h
  subst hce
  rcases hE : f.sysSerializeErrorState es with ⟨em, ee⟩
  have hee : ee = none := by
    have h := hssE es
    rw [hE] at h
    exact h
  subst hee
  refine ⟨sm, cm,
    { stateVersion := (ctx.stateVersion + 1) % U64
      stateName := outcome.state
      stateData := (f.serializeData outcome.data).fst
      workflowId := ctx.workflowId }, ?_⟩
  rw [recordStateMarkers]
  simp only [hS, hC, hE]
  rfl

/-- C4: when the decider for the current state panics on an unprocessed
event, `AllowPanics` is off, and the resolved `DecisionErrorHandler`
returns no rescue outcome, `Tick` returns without error and its decision
list is the refreshed state marker, the refreshed correlator marker, then
a `RecordMarker(FSM.Error)` whose payload serializes the error state with
`details` the handler's error text, `errorEvent` the panicking event,
`earliestUnprocessedEventId = previousStartedEventId + 1` and
`latestUnprocessedEventId = startedEventId`, followed by the pre-panic
outcome's decisions (serializers assumed non-failing). -/
theorem tick_panic_records_error_marker (f : FSM D) (task : DecisionTask)
    (found : SerializedState) (corr0 : EventCorrelator) (d0 : D)
    (pre rest : List HistoryEvent) (e : HistoryEvent)
    (ctx0 ctx1 : FSMContext D) (outcome0 o1 : Outcome D) (st : FSMState D)
    (msg : String) (nerr : Option String)
    (hap : f.allowPanics = false)
    (hfs : findSerializedState f (f.beforeTask task).events = (some found, none))
    (hfc : findSerializedEventCorrelator f (f.beforeTask task).events = (corr0, none))
    (hdd : f.deserializeData found.stateData = (d0, none))
    (hne : (findSerializedErrorState f (f.beforeTask task).events).fst = none)
    (hctx0 : ctx0 =
      { workflowTypeName := (f.beforeTask task).workflowTypeName
        workflowId := (f.beforeTask task).workflowId
        runId := (f.beforeTask task).runId
        eventCorrelator := corr0
        state := ""
        stateData := none
        stateVersion := found.stateVersion })
    (hout0 : outcome0 = f.beforeDecision (f.beforeTask task) ctx0
      { state := found.stateName, data := d0, decisions := [] })
    (hsplit : (findLastEvents (f.beforeTask task).previousStartedEventId
        (f.beforeTask task).events).reverse = pre ++ e :: rest)
    (hpre : foldEvents f (f.beforeTask task) ctx0 outcome0 pre = (ctx1, .done o1))
    (hlook : smapGet f.states o1.state = some st)
    (hpanic : st.decider ({ ctx1 with state := o1.state, stateData := some o1.data }) e o1.data
      = .panic msg)
    (hhand : ((smapGet f.errorHandlers st.name).getD f.decisionErrorHandler)
        ({ ctx1 with state := o1.state, stateData := some o1.data }) e
        (f.stasherUnstash (f.stasherStash o1.data)) o1.data (some msg) = (none, nerr))
    (hssS : ∀ s, (f.sysSerializeState s).snd = none)
    (hssC : ∀ c, (f.sysSerializeCorrelator c).snd = none)
    (hssE : ∀ es, (f.sysSerializeErrorState es).snd = none) :
    ∃ (sdet cdet : String) (ss : SerializedState),
      Tick f task = .ok ({ ctx1 with state := o1.state, stateData := some o1.data })
        (recordStringMarker StateMarker sdet :: recordStringMarker CorrelatorMarker cdet
          :: recordStringMarker ErrorMarker
              (f.sysSerializeErrorState
                { details := nerr.getD ""
                  errorEvent := e
                  earliestUnprocessedEventId := (f.beforeTask task).previousStartedEventId + 1
                  latestUnprocessedEventId := (f.beforeTask task).startedEventId }).fst
          :: o1.decisions) ss := by
  have hcd : contextDecide ({ ctx1 with state := o1.state, stateData := some o1.data }) e o1.data
      st.decider
      = (.panic msg, { ctx1 with state := o1.state, stateData := some o1.data }) := by
    rw [contextDecide, hpanic]
  have hstep : foldEvents f (f.beforeTask task) ctx1 o1 (e :: rest)
      = ({ ctx1 with state := o1.state, stateData := some o1.data },
         .recordError
           { details := nerr.getD ""
             errorEvent := e
             earliestUnprocessedEventId := (f.beforeTask task).previousStartedEventId + 1
             latestUnprocessedEventId := (f.beforeTask task).startedEventId } o1) := by
    rw [foldEvents, hlook]
    simp only [hcd, hap, Bool.false_eq_true, if_false, hhand]
  have hfold : foldEvents f (f.beforeTask task) ctx0 outcome0 (pre ++ e :: rest)
      = ({ ctx1 with state := o1.state, stateData := some o1.data },
         .recordError
           { details := nerr.getD ""
             errorEvent := e
             earliestUnprocessedEventId := (f.beforeTask task).previousStartedEventId + 1
             latestUnprocessedEventId := (f.beforeTask task).startedEventId } o1) := by
    rw [foldEvents_append_done f (f.beforeTask task) pre (e :: rest) ctx0 outcome0 ctx1 o1 hpre]
    exact hstep
  obtain ⟨sdet, cdet, ss, hrec⟩ :=
    recordStateMarkers_total f ({ ctx1 with state := o1.state, stateData := some o1.data }) o1
      ctx1.eventCorrelator
      ({ details := nerr.getD ""
         errorEvent := e
         earliestUnprocessedEventId := (f.beforeTask task).previousStartedEventId + 1
         latestUnprocessedEventId := (f.beforeTask task).startedEventId }) hssS hssC hssE
  refine ⟨sdet, cdet, ss, ?_⟩
  rw [Tick, tick]
  simp only [hfs, hfc, hdd, hne]
  rw [← hctx0, ← hout0, tickFinish, hsplit, hfold]
  simp only [tickRecord, hrec]

def c4Fsm : FSM Unit :=
  { unitFsmW with
    states := [("start", { name := "start", decider := fun _ _ _ => .panic "boom" })]
    sysSerializeErrorState := fun es =>
      (toString es.earliestUnprocessedEventId ++ ":" ++ toString es.latestUnprocessedEventId
        ++ ":" ++ es.details, none) }

def c4e42 : HistoryEvent :=
  { eventId := some 42, eventType := some "TimerFired" }

def c4e40 : HistoryEvent :=
  { eventId := some 40, eventType := some "DecisionTaskStarted" }

def c4Task : DecisionTask :=
  { workflowId := "wf", previousStartedEventId := 40, startedEventId := 45
    events := [c4e42, c4e40, startEventW] }

def c4Found : SerializedState :=
  { stateVersion := 22, stateName := "start", stateData := "sd", workflowId := "" }

def c4Corr : EventCorrelator :=
  { deserActState := c4Fsm.sysDeserActState }

def c4Ctx0 : FSMContext Unit :=
  { workflowTypeName := "", workflowId := "wf", runId := "", eventCorrelator := c4Corr
    state := "", stateData := none, stateVersion := 22 }

def c4Out0 : Outcome Unit :=
  { state := "start", data := (), decisions := [] }

def c4St : FSMState Unit :=
  { name := "start", decider := fun _ _ _ => .panic "boom" }

/-- Witness for C4: the spec's own example — the decider panics "boom" on
event 42 with previousStarted=40, started=45; the tick succeeds and the
error-marker payload serializes earliest=41, latest=45, details="boom". -/
theorem tick_panic_records_error_marker_witness :
    ∃ (sdet cdet : String) (ss : SerializedState),
      Tick c4Fsm c4Task
        = .ok ({ c4Ctx0 with state := "start", stateData := some () })
            [recordStringMarker StateMarker sdet, recordStringMarker CorrelatorMarker cdet,
             recordStringMarker ErrorMarker "41:45:boom"] ss :=
  tick_panic_records_error_marker c4Fsm c4Task c4Found c4Corr () [] [] c4e42 c4Ctx0 c4Ctx0
    c4Out0 c4Out0 c4St "boom" (some "boom") rfl rfl rfl rfl rfl rfl rfl rfl rfl rfl rfl rfl
    (fun _ => rfl) (fun _ => rfl) (fun _ => rfl)


/-! ## Claim C5 -/

def c5ErrMarker : HistoryEvent :=
  { eventId := some 5, eventType := some "MarkerRecorded"
    markerRecordedEventAttributes := some ({ markerName := some "FSM.Error", details := some "err" }) }

def c5Task : DecisionTask :=
  { workflowId := "wf", previousStartedEventId := 4, startedEventId := 6
    events := [c5ErrMarker, startEventW] }

/-- An FSM whose error handler always rescues (so `ErrorStateTick` reaches
its shadow tick), whose error-state deserializer yields the window
`[2, 3]`, and whose error-state serializer exposes
`latestUnprocessedEventId` in the payload. -/
def c5Fsm : FSM Unit :=
  { unitFsmW with
    decisionErrorHandler := fun _ _ _ _ e => (some { state := "", data := (), decisions := [] }, e)
    deserializeErrorState := fun _ =>
      ({ details := "boom", errorEvent := {}, earliestUnprocessedEventId := 2
         latestUnprocessedEventId := 3 }, none)
    sysSerializeErrorState := fun es => ("E:" ++ toString es.latestUnprocessedEventId, none)
    sysDeserializeTask := fun _ => (c5Task, none) }

def c5TaskNoStart : DecisionTask :=
  { c5Task with events := [c5ErrMarker] }

def c5Es : SerializedErrorState :=
  { details := "boom", errorEvent := {}, earliestUnprocessedEventId := 2
    latestUnprocessedEventId := 3 }

def c5Corr : EventCorrelator :=
  { deserActState := c5Fsm.sysDeserActState }

def c5Ctx : FSMContext Unit :=
  { workflowTypeName := "", workflowId := "wf", runId := "", eventCorrelator := c5Corr
    state := "", stateData := none, stateVersion := 22 }

/-- C5 (code bug): `ErrorStateTick` does re-run `Tick` on a cloned task
with error markers stripped from history and the event-id window
overridden to `[earliestUnprocessedEventId, latestUnprocessedEventId]` —
but its success test is inverted (`if err != nil` guards the recovery
path).  Concretely: (1) on `c5Task` the shadow tick succeeds, yet
`ErrorStateTick` discards the recovered outcome and returns `(nil, nil)`;
(2) the outer `Tick` therefore re-records the error marker bumped to the
current `startedEventId` (payload `E:6`) instead of replacing the outcome
— recovery is never applied; (3) when the shadow tick fails with a nil
serialized state (`c5TaskNoStart`), the "success" branch dereferences the
nil state and panics. -/
theorem error_state_tick_inverted :
    errorStateTickAux (tick 1) c5Fsm c5Task c5Es c5Ctx () = .ok (none, none)
    ∧ tickDecisions (Tick c5Fsm c5Task)
        = some [recordStringMarker StateMarker "S", recordStringMarker CorrelatorMarker "C",
                recordStringMarker ErrorMarker "E:6"]
    ∧ errorStateTickAux (tick 1) c5Fsm c5TaskNoStart c5Es c5Ctx ()
        = .error "runtime error: invalid memory address or nil pointer dereference" :=
  ⟨rfl, rfl, rfl⟩

end Swfsm
